import Mathlib

/-!
Shallow embedding of the real-time collaborative document synchronizer of
`src/frontend/src/app/protected/instrumento/page.tsx`.

Modelling conventions:
* Slides are modelled structurally (`Slide`), and the JSON strings produced by
  `JSON.stringify(slides)` are modelled as the slide-list values themselves
  (type `Snapshot`): `JSON.stringify` is deterministic and injective on these
  acyclic object values and `JSON.parse` inverts it, so byte-for-byte string
  equality corresponds exactly to value equality.  The `catch` branches around
  `JSON.stringify` (which can only fire on cyclic data, impossible here) are
  therefore dropped.
* React refs and state hooks become fields of one record `EditorState`.
  Effects that react to `setSlides` (the history-capture effect declared at
  line 2885 and the dirty-marking effect at line 2998, which React runs in
  declaration order) are composed explicitly after each slide mutation.
* `window.setTimeout(f, 0)` tasks that run right after a handler (the
  pending-edit flush in the own-ack branch, the `applyingRemoteRef` reset, the
  conflict-retry publish) are composed sequentially after the handler, which
  matches the single-threaded event-loop semantics.
* Debounce timers are modelled as an armed/disarmed flag plus an explicit
  fire event (`fireHistoryTimer`); clear-and-reset rescheduling keeps the
  flag armed.
* Wall-clock instants (`Date.now()`) are `Nat` parameters named `now`.
  `now - lastAt < 1500` agrees with the JS computation also when
  `now < lastAt` (both sides are then `true`).
* Outgoing `client.publish` calls are collected in a `List PublishMsg` result.
* Network fetches performed inside handlers (the resync re-fetch) take the
  response as an explicit `FetchResult` argument.
-/

/-- One slide of the document.  For the synchronizer only the client-generated
numeric `id` and the (opaque) remaining payload matter; the payload is
abstracted as a single `content` field. -/
structure Slide where
  id : Nat
  content : Nat
deriving DecidableEq, Repr

/-- Stands for the serialized JSON string `JSON.stringify(slides)`; see the
module docstring for the justification of the value-level modelling. -/
abbrev Snapshot := List Slide

/-- The `saveStatus` React state: "idle" | "saving" | "saved" | "error". -/
inductive SaveStatus where
  | idle
  | saving
  | saved
  | error
deriving DecidableEq, Repr

/-- Decoded `InstrumentoWsUpdateBroadcast` payload.  `version` is `some` iff
`typeof payload.version === "number"`; `clientId` and `slides` are `some` iff
the respective field is present with the right shape. -/
structure UpdateBroadcast where
  version : Option Nat
  clientId : Option String
  slides : Option Snapshot
deriving DecidableEq, Repr

/-- Decoded `InstrumentoWsError` payload. -/
structure WsErrorMsg where
  code : Option String
  message : Option String
  clientId : Option String
deriving DecidableEq, Repr

/-- A message arriving on the private errors queue: either a body that is not
valid JSON, or a decoded error payload (`raw` keeps the raw body used in the
error strings). -/
inductive RawWsError where
  | malformed (raw : String)
  | decoded (raw : String) (e : WsErrorMsg)
deriving DecidableEq, Repr

/-- The command published on `/app/instrumentos/update`. -/
structure PublishMsg where
  turmaId : Nat
  slides : Snapshot
  expectedVersion : Option Nat
  clientId : String
  eventType : String
  summary : String
deriving DecidableEq, Repr

/-- Outcome of `Requests.getInstrumentoByTurma` as consumed by the resync
branch: HTTP ok with optional numeric `version` and optional slide payload
(`slidesJson` a string that parses to an array), HTTP not ok, or a thrown
network error. -/
inductive FetchResult where
  | ok (version : Option Nat) (slidesJson : Option Snapshot)
  | notOk
  | netError (msg : String)
deriving DecidableEq, Repr

/-- JavaScript string truthiness. -/
def jsTruthy (s : String) : Bool := s ≠ ""

/-- `HISTORY_MAX = 60` (page.tsx line 2812). -/
def HISTORY_MAX : Nat := 60

/-- `HISTORY_DEBOUNCE_MS = 350` (page.tsx line 2813); the debounce duration —
the timer is modelled as an armed flag, so the constant is recorded only for
reference. -/
def HISTORY_DEBOUNCE_MS : Nat := 350

/-- Digits of a decimal numeral to a `Nat` (`parseInt(digits, 10)`).
JS `parseInt` returns a float that is only non-finite for numerals of 309+
digits; the `Number.isFinite` filter in the source is therefore the identity
on all realistic inputs and is not modelled. -/
def parseNatDigits (cs : List Char) : Nat :=
  cs.foldl (fun n c => n * 10 + (c.toNat - 48)) 0

/-- Approximation of the regex class `\s` (the source messages only use
ASCII spaces). -/
def isJsSpace (c : Char) : Bool := c.isWhitespace

/-- Case-insensitive literal match at the head of the input; returns the rest
of the input on success. -/
def matchCI : List Char → List Char → Option (List Char)
  | [], rest => some rest
  | _ :: _, [] => none
  | l :: ls, c :: cs => if c.toLower = l.toLower then matchCI ls cs else none

/-- Tries the regex `key\s*=\s*(\d+)` anchored at the start of `cs`
(case-insensitive, greedy digit run). -/
def matchKeyValueHere (key : List Char) (cs : List Char) : Option Nat :=
  match matchCI key cs with
  | none => none
  | some rest =>
    match rest.dropWhile isJsSpace with
    | '=' :: rest2 =>
      let ds := (rest2.dropWhile isJsSpace).takeWhile Char.isDigit
      if ds.isEmpty then none else some (parseNatDigits ds)
    | _ => none

/-- First match of `key\s*=\s*(\d+)` anywhere in the input, scanning start
positions left to right exactly as the regex engine does. -/
def findKeyValue (key : List Char) : List Char → Option Nat
  | [] => none
  | c :: cs =>
    match matchKeyValueHere key (c :: cs) with
    | some n => some n
    | none => findKeyValue key cs

/-- `parseVersionConflictMessage` (page.tsx lines 124-138): best-effort text
parse of the `expected=X actual=Y` pattern; returns `(expected?, actual?)`. -/
def parseVersionConflictMessage (msg : String) : Option Nat × Option Nat :=
  if msg = "" then (none, none)
  else
    (findKeyValue (("expected").toList) msg.toList,
     findKeyValue (("actual").toList) msg.toList)

/-- The synchronizer state of one editor instance: every React ref and state
hook of `page.tsx` that the synchronization, history and dirty-tracking logic
reads or writes (lines 2752-2813). -/
structure EditorState where
  turmaId : Option Nat
  clientId : String
  slides : Snapshot
  currentSlideId : Nat
  loading : Bool
  loadedFromApi : Bool
  canSaveToApi : Bool
  wsConnected : Bool
  clientConnected : Bool
  instrumentoVersion : Option Nat
  versionRef : Option Nat
  applyingRemote : Bool
  pendingWsSave : Bool
  wsDirtyWhileSaving : Bool
  pendingWsSavedJson : Option Snapshot
  lastSavedSlidesJson : Option Snapshot
  dirtySinceLastPersist : Bool
  suppressAutosaveUntil : Nat
  conflictRetryLastAt : Nat
  conflictRetryLastActual : Option Nat
  saveStatus : SaveStatus
  lastSaveError : Option String
  undoStack : List Snapshot
  redoStack : List Snapshot
  historyBaseline : Option Snapshot
  historyPendingFrom : Option Snapshot
  historyTimerArmed : Bool
  historyInitialized : Bool
  isApplyingHistory : Bool
deriving DecidableEq, Repr

/-- `initHistoryIfNeeded` (page.tsx lines 2823-2836). -/
def initHistoryIfNeeded (st : EditorState) : EditorState :=
  if st.historyInitialized then st
  else if st.turmaId.isSome && (st.loading || !st.loadedFromApi) then st
  else
    { st with historyBaseline := some st.slides
              undoStack := []
              redoStack := []
              historyPendingFrom := none
              historyTimerArmed := false
              historyInitialized := true }

/-- `flushPendingHistoryCommit` (page.tsx lines 2838-2867).  Stacks are
modelled top-first: JS pushes and pops at the array end and splices the oldest
entries from the front; here the top is the head and the 60-entry cap drops
the tail. -/
def flushPendingHistoryCommit (st : EditorState) : EditorState :=
  if !st.historyInitialized then st
  else
    let fromJson := st.historyPendingFrom
    let st := { st with historyTimerArmed := false, historyPendingFrom := none }
    let currentJson := st.slides
    match fromJson with
    | none => { st with historyBaseline := some currentJson }
    | some fj =>
      if currentJson = fj then { st with historyBaseline := some currentJson }
      else
        let undo := fj :: st.undoStack
        let undo :=
          if HISTORY_MAX < undo.length then undo.take HISTORY_MAX else undo
        { st with undoStack := undo
                  redoStack := []
                  historyBaseline := some currentJson }

/-- The history-capture effect (page.tsx lines 2885-2924), run after every
slides mutation.  Arming `historyTimerArmed` models the clear-and-reset of
the 350 ms debounce timer. -/
def historyCaptureEffect (st : EditorState) : EditorState :=
  let st := initHistoryIfNeeded st
  if !st.historyInitialized then st
  else if st.isApplyingHistory then st
  else
    let nextJson := st.slides
    if st.applyingRemote then
      { st with historyBaseline := some nextJson
                undoStack := []
                redoStack := []
                historyPendingFrom := none
                historyTimerArmed := false }
    else
      match st.historyBaseline with
      | none => { st with historyBaseline := some nextJson }
      | some prevJson =>
        if nextJson = prevJson then st
        else
          let st :=
            if st.historyPendingFrom.isNone
            then { st with historyPendingFrom := some prevJson } else st
          { st with historyTimerArmed := true }

/-- The dirty-marking effect (page.tsx lines 2998-3010), run after every
slides mutation. -/
def dirtyMarkEffect (now : Nat) (st : EditorState) : EditorState :=
  if st.turmaId.isNone then st
  else if st.loading then st
  else if !st.loadedFromApi then st
  else if st.applyingRemote then st
  else if now < st.suppressAutosaveUntil then st
  else
    let st := { st with dirtySinceLastPersist := true }
    if st.wsConnected && st.pendingWsSave
    then { st with wsDirtyWhileSaving := true } else st

/-- A local mutation `setSlides(s)` at instant `now`, followed by the React
effect pass it triggers: the slidesRef sync (line 2798), the history-capture
effect (line 2885) and the dirty-marking effect (line 2998), in declaration
order. -/
def applyLocalEdit (now : Nat) (s : Snapshot) (st : EditorState) : EditorState :=
  dirtyMarkEffect now (historyCaptureEffect { st with slides := s })

/-- A sequence of local mutations, each tagged with its instant. -/
def applyLocalEdits (edits : List (Nat × Snapshot)) (st : EditorState) : EditorState :=
  edits.foldl (fun s q => applyLocalEdit q.1 q.2 s) st

/-- Expiry of the history debounce timer (the `setTimeout` callback of page.tsx
lines 2920-2923): fires only if still armed. -/
def fireHistoryTimer (st : EditorState) : EditorState :=
  if st.historyTimerArmed
  then flushPendingHistoryCommit { st with historyTimerArmed := false }
  else st

/-- An undo keystroke (Ctrl/Cmd+Z with the guards of page.tsx lines 2927-2947
already passed), lines 2946-2970, composed with the effect pass its
`setSlides` triggers and the timeout that resets `isApplyingHistoryRef`. -/
def applyUndoKey (now : Nat) (st : EditorState) : EditorState :=
  let st := initHistoryIfNeeded st
  if !st.historyInitialized then st
  else
    let st := flushPendingHistoryCommit st
    let currentJson := st.historyBaseline.getD st.slides
    match st.undoStack with
    | [] => st
    | prevJson :: rest =>
      let st := { st with redoStack := currentJson :: st.redoStack
                          isApplyingHistory := true
                          historyBaseline := some prevJson
                          slides := prevJson
                          undoStack := rest }
      let st := dirtyMarkEffect now (historyCaptureEffect st)
      { st with isApplyingHistory := false }

/-- A redo keystroke (Ctrl/Cmd+Y or Ctrl/Cmd+Shift+Z), page.tsx lines
2973-2988, composed like `applyUndoKey`. -/
def applyRedoKey (now : Nat) (st : EditorState) : EditorState :=
  let st := initHistoryIfNeeded st
  if !st.historyInitialized then st
  else
    let st := flushPendingHistoryCommit st
    let currentJson := st.historyBaseline.getD st.slides
    match st.redoStack with
    | [] => st
    | nextJson :: rest =>
      let st := { st with undoStack := currentJson :: st.undoStack
                          isApplyingHistory := true
                          historyBaseline := some nextJson
                          slides := nextJson
                          redoStack := rest }
      let st := dirtyMarkEffect now (historyCaptureEffect st)
      { st with isApplyingHistory := false }

/-- JS `String.prototype.trim`, implemented over the character list so that it
evaluates inside the kernel (JS trims WhiteSpace and LineTerminator chars;
`isJsSpace` is the same approximation used for the regex `\s`). -/
def jsTrim (s : String) : String :=
  String.mk (((s.toList.dropWhile isJsSpace).reverse.dropWhile isJsSpace).reverse)

/-- `publishWsSnapshot` (page.tsx lines 3367-3414).  Returns the boolean
result, the new state and the list of messages published on
`/app/instrumentos/update` (empty or a singleton). -/
def publishWsSnapshot (summary eventType : Option String) (st : EditorState) :
    Bool × EditorState × List PublishMsg :=
  match st.turmaId with
  | none => (false, st, [])
  | some tid =>
    if !st.clientConnected then
      (false, { st with lastSaveError := some ("WS não conectado") }, [])
    else if st.pendingWsSave then
      (true, { st with wsDirtyWhileSaving := true }, [])
    else
      let st := { st with pendingWsSave := true
                          pendingWsSavedJson := some st.slides
                          lastSaveError := none }
      let effectiveEventType :=
        match eventType with
        | some e =>
          if jsTruthy e && jsTruthy (jsTrim e) then jsTrim e else "SNAPSHOT_UPDATE"
        | none => "SNAPSHOT_UPDATE"
      let effectiveSummary :=
        match summary with
        | some s => if jsTruthy s then s else "Atualizou o instrumento"
        | none => "Atualizou o instrumento"
      (true, st,
       [{ turmaId := tid
          slides := st.slides
          expectedVersion := st.versionRef
          clientId := st.clientId
          eventType := effectiveEventType
          summary := effectiveSummary }])

/-- Whether a broadcast is this client's own echo:
`payload?.clientId && payload.clientId === clientIdRef.current`
(page.tsx line 3149). -/
def isOwnEcho (p : UpdateBroadcast) (st : EditorState) : Bool :=
  match p.clientId with
  | some c => jsTruthy c && c == st.clientId
  | none => false

/-- The updates-topic subscription handler (page.tsx lines 3136-3207) for a
broadcast that decoded successfully, minus the deferred pending-edit flush
(the `setTimeout(.., 0)` of lines 3166-3170), whose scheduling is returned as
the boolean component.  The foreign branch composes the effect pass triggered
by its `setSlides` (run while `applyingRemoteRef` is still `true`) and the
trailing timeout that resets `applyingRemoteRef`.  The change-log list is not
modelled (`payload.logEntry` only feeds the display-only log panel). -/
def updatesTopicHandler (now : Nat) (p : UpdateBroadcast) (st : EditorState) :
    EditorState × Bool :=
  let st :=
    match p.version with
    | some v => { st with instrumentoVersion := some v, versionRef := some v }
    | none => st
  if isOwnEcho p st then
    let st :=
      if st.pendingWsSave then
        let st := { st with pendingWsSave := false }
        let st :=
          match st.pendingWsSavedJson with
          | some j => { st with lastSavedSlidesJson := some j, pendingWsSavedJson := none }
          | none => st
        { st with dirtySinceLastPersist := false
                  lastSaveError := none
                  saveStatus := SaveStatus.saved }
      else st
    if st.wsDirtyWhileSaving then
      ({ st with wsDirtyWhileSaving := false }, true)
    else (st, false)
  else
    match p.slides with
    | some remoteSlides =>
      let st := { st with applyingRemote := true
                          suppressAutosaveUntil :=
                            max st.suppressAutosaveUntil (now + 1200)
                          slides := remoteSlides
                          lastSavedSlidesJson := some remoteSlides
                          dirtySinceLastPersist := false }
      let st :=
        match remoteSlides with
        | [] => st
        | s0 :: _ =>
          { st with currentSlideId :=
              if remoteSlides.any (fun s => s.id = st.currentSlideId)
              then st.currentSlideId else s0.id }
      let st := dirtyMarkEffect now (historyCaptureEffect st)
      ({ st with applyingRemote := false }, false)
    | none => (st, false)

/-- The updates-topic handler followed by the deferred pending-edit flush it
may have scheduled (`setSaveStatus("saving"); publishWsSnapshot()` in a
0 ms timeout, page.tsx lines 3166-3170). -/
def processUpdateBroadcast (now : Nat) (p : UpdateBroadcast) (st : EditorState) :
    EditorState × List PublishMsg :=
  let r := updatesTopicHandler now p st
  if r.2 then
    let st := { r.1 with saveStatus := SaveStatus.saving }
    let pr := publishWsSnapshot none none st
    (pr.2.1, pr.2.2)
  else (r.1, [])

/-- The full resync fallback inside the VERSION_CONFLICT branch (page.tsx
lines 3298-3336): `setSaveStatus("error")`, re-fetch, adopt the fetched
version, replace the slides wholesale (with the effect pass its `setSlides`
triggers while `applyingRemoteRef` is `true`) and clear dirty state. -/
def resyncAfterConflict (now : Nat) (fetch : FetchResult) (st : EditorState) :
    EditorState :=
  let st := { st with saveStatus := SaveStatus.error }
  match fetch with
  | FetchResult.ok v sj =>
    let st :=
      match v with
      | some vv => { st with instrumentoVersion := some vv, versionRef := some vv }
      | none => st
    match sj with
    | some parsedSlides =>
      let st := { st with applyingRemote := true
                          suppressAutosaveUntil :=
                            max st.suppressAutosaveUntil (now + 1200)
                          slides := parsedSlides
                          lastSavedSlidesJson := some parsedSlides
                          dirtySinceLastPersist := false }
      let st := dirtyMarkEffect now (historyCaptureEffect st)
      { st with applyingRemote := false }
    | none => st
  | FetchResult.notOk => st
  | FetchResult.netError m =>
    { st with lastSaveError := some ("Falha ao ressincronizar: " ++ m) }

/-- `rawBody.slice(0, 280) || "<vazio>"` used in the malformed-error strings. -/
def rawBodyExcerpt (raw : String) : String :=
  if jsTruthy (raw.take 280) then raw.take 280 else "<vazio>"

/-- JS truthiness of an optional string field (absent, or present but empty,
are both falsy). -/
def optTruthy (o : Option String) : Bool :=
  match o with
  | some s => jsTruthy s
  | none => false

/-- `err.message ? ": " + err.message : ""`. -/
def messageSuffix (o : Option String) : String :=
  match o with
  | some m => if jsTruthy m then ": " ++ m else ""
  | none => ""

/-- The private errors-queue subscription handler (page.tsx lines 3221-3343),
composed with the deferred conflict-retry publish it may schedule (the 150 ms
timeout of lines 3289-3293).  `fetch` is the response of the resync re-fetch
performed when the retry is suppressed; the published retry messages are
returned alongside the new state. -/
def processWsError (now : Nat) (r : RawWsError) (fetch : FetchResult)
    (st : EditorState) : EditorState × List PublishMsg :=
  match r with
  | RawWsError.malformed raw =>
    ({ st with saveStatus := SaveStatus.error
               pendingWsSave := false
               pendingWsSavedJson := none
               wsDirtyWhileSaving := false
               lastSaveError := some ("Erro WS (não-JSON): " ++ rawBodyExcerpt raw) },
     [])
  | RawWsError.decoded raw e =>
    if !optTruthy e.code then
      ({ st with saveStatus := SaveStatus.error
                 pendingWsSave := false
                 pendingWsSavedJson := none
                 wsDirtyWhileSaving := false
                 lastSaveError := some ("Erro WS (sem code): " ++ rawBodyExcerpt raw) },
       [])
    else if optTruthy e.clientId && (e.clientId.getD "") != st.clientId then
      (st, [])
    else
      let st := { st with pendingWsSave := false
                          pendingWsSavedJson := none
                          wsDirtyWhileSaving := false }
      let code := e.code.getD ""
      if code = "VERSION_CONFLICT" then
        let st := { st with saveStatus := SaveStatus.saving
                            lastSaveError :=
                              some ("VERSION_CONFLICT" ++ messageSuffix e.message) }
        let parsedActual := (parseVersionConflictMessage (e.message.getD "")).2
        let st :=
          match parsedActual with
          | some a => { st with instrumentoVersion := some a, versionRef := some a }
          | none => st
        let sameActual : Bool :=
          match parsedActual with
          | some a => st.conflictRetryLastActual == some a
          | none => false
        let tooSoon : Bool := decide (now - st.conflictRetryLastAt < 1500)
        if !tooSoon || !sameActual then
          let st := { st with conflictRetryLastAt := now
                              conflictRetryLastActual := parsedActual }
          if st.dirtySinceLastPersist then
            let st := { st with saveStatus := SaveStatus.saving }
            let pr := publishWsSnapshot none (some ("INTERNAL_RETRY")) st
            let st := if pr.1 then pr.2.1 else { pr.2.1 with saveStatus := SaveStatus.error }
            (st, pr.2.2)
          else (resyncAfterConflict now fetch st, [])
        else (resyncAfterConflict now fetch st, [])
      else
        ({ st with saveStatus := SaveStatus.error
                   lastSaveError := some (code ++ messageSuffix e.message) },
         [])

/-- The success path of the initial load effect (page.tsx lines 3017-3089):
HTTP ok, numeric (or numeric-string) `version`, `slidesJson` a string parsing
to an array.  Composes the effect pass triggered by its `setSlides` (run while
`applyingRemoteRef` is `true`, with `loading` already reset by the `finally`)
and the trailing `applyingRemoteRef` reset.  `versionRef` follows
`instrumentoVersion` through the sync effect of lines 3012-3014. -/
def applyLoadHydration (now : Nat) (version : Option Nat) (parsedSlides : Snapshot)
    (st : EditorState) : EditorState :=
  let st :=
    match version with
    | some v => { st with instrumentoVersion := some v, versionRef := some v }
    | none => st
  let st := { st with applyingRemote := true
                      suppressAutosaveUntil :=
                        max st.suppressAutosaveUntil (now + 1200)
                      slides := parsedSlides
                      lastSavedSlidesJson := some parsedSlides
                      dirtySinceLastPersist := false }
  let st :=
    match parsedSlides with
    | [] => st
    | s0 :: _ => { st with currentSlideId := s0.id }
  let st := { st with loadedFromApi := true, canSaveToApi := true, loading := false }
  let st := dirtyMarkEffect now (historyCaptureEffect st)
  { st with applyingRemote := false }

/-- `handleDeleteSlide` (page.tsx lines 3989-3997).  `none` models the
`TypeError` thrown by `newSlides[0].id` when the filter removed every slide
(unreachable while slide ids are unique).  The effect pass triggered by its
`setSlides` only touches history/dirty bookkeeping, never the slide list, and
is modelled separately by `applyLocalEdit`. -/
def handleDeleteSlide (slideId : Nat) (st : EditorState) : Option EditorState :=
  if st.slides.length ≤ 1 then some st
  else
    let newSlides := st.slides.filter (fun s => s.id ≠ slideId)
    if st.currentSlideId = slideId then
      match newSlides with
      | [] => none
      | s0 :: _ => some { st with slides := newSlides, currentSlideId := s0.id }
    else some { st with slides := newSlides }

/-- A concrete, fully initialized editor state used to instantiate the
hypothesis-bearing theorems below on explicit inputs. -/
def baseState : EditorState where
  turmaId := some 7
  clientId := "17000-abc"
  slides := [⟨1, 10⟩, ⟨2, 20⟩]
  currentSlideId := 1
  loading := false
  loadedFromApi := true
  canSaveToApi := true
  wsConnected := true
  clientConnected := true
  instrumentoVersion := some 5
  versionRef := some 5
  applyingRemote := false
  pendingWsSave := false
  wsDirtyWhileSaving := false
  pendingWsSavedJson := none
  lastSavedSlidesJson := none
  dirtySinceLastPersist := false
  suppressAutosaveUntil := 0
  conflictRetryLastAt := 0
  conflictRetryLastActual := none
  saveStatus := SaveStatus.idle
  lastSaveError := none
  undoStack := []
  redoStack := []
  historyBaseline := some [⟨1, 10⟩, ⟨2, 20⟩]
  historyPendingFrom := none
  historyTimerArmed := false
  historyInitialized := true
  isApplyingHistory := false


/-- Under unique slide ids, deleting by id removes at most one slide. -/
lemma filter_ne_id_length (l : List Slide) (i : Nat)
    (h : (l.map Slide.id).Nodup) :
    l.length ≤ (l.filter (fun s => s.id ≠ i)).length + 1 := by
  induction l with
  | nil => simp
  | cons s t ih =>
    simp only [List.map_cons, List.nodup_cons] at h
    have ih' := ih h.2
    by_cases hs : s.id = i
    · have ht : t.filter (fun s => s.id ≠ i) = t := by
        refine List.filter_eq_self.mpr ?_
        intro x hx
        simp only [ne_eq, decide_eq_true_eq]
        intro hxi
        exact h.1 (by rw [hs, ← hxi]; exact List.mem_map_of_mem Slide.id hx)
      rw [List.filter_cons, if_neg (by simp [hs]), ht]
      simp
    · rw [List.filter_cons, if_pos (by simp [hs])]
      simp only [List.length_cons]
      omega

/-- Claim C6 (slide-deletion floor): for a slides list with exactly one slide
or fewer, `handleDeleteSlide` returns without changing anything; and, the
slide ids being unique within a document, a document holding at least one
slide before a delete attempt still holds at least one slide afterward. -/
theorem slide_deletion_floor (st : EditorState) (i : Nat)
    (hNodup : (st.slides.map Slide.id).Nodup) (hLen : 1 ≤ st.slides.length) :
    (st.slides.length ≤ 1 → handleDeleteSlide i st = some st) ∧
    ∃ st', handleDeleteSlide i st = some st' ∧ 1 ≤ st'.slides.length := by
  constructor
  · intro hle
    simp [handleDeleteSlide, hle]
  · by_cases hle : st.slides.length ≤ 1
    · exact ⟨st, by simp [handleDeleteSlide, hle], hLen⟩
    · have hflen : 1 ≤ (st.slides.filter (fun s => s.id ≠ i)).length := by
        have := filter_ne_id_length st.slides i hNodup
        omega
      unfold handleDeleteSlide
      rw [if_neg hle]
      by_cases hcur : st.currentSlideId = i
      · rw [if_pos hcur]
        rcases hfe : st.slides.filter (fun s => s.id ≠ i) with _ | ⟨s0, rest⟩
        · rw [hfe] at hflen
          simp at hflen
        · rw [hfe]
          exact ⟨_, rfl, by simp⟩
      · rw [if_neg hcur]
        exact ⟨_, rfl, hflen⟩

/-- Witness for `slide_deletion_floor` at a concrete two-slide state. -/
theorem slide_deletion_floor_witness :
    (((baseState.slides.map Slide.id).Nodup ∧ 1 ≤ baseState.slides.length) ∧
     ((baseState.slides.length ≤ 1 → handleDeleteSlide 2 baseState = some baseState) ∧
      ∃ st', handleDeleteSlide 2 baseState = some st' ∧ 1 ≤ st'.slides.length)) :=
  ⟨⟨by decide, by decide⟩,
   slide_deletion_floor baseState 2 (by decide) (by decide)⟩

/-- The history-capture effect writes only the history bookkeeping fields. -/
lemma historyCaptureEffect_shape (st : EditorState) :
    ∃ u r b p t i, historyCaptureEffect st =
      { st with undoStack := u, redoStack := r, historyBaseline := b,
                historyPendingFrom := p, historyTimerArmed := t,
                historyInitialized := i } := by
  unfold historyCaptureEffect initHistoryIfNeeded
  repeat first
    | exact ⟨_, _, _, _, _, _, rfl⟩
    | split
    | dsimp only

/-- The dirty-marking effect writes only the dirty flags. -/
lemma dirtyMarkEffect_shape (now : Nat) (st : EditorState) :
    ∃ d w, dirtyMarkEffect now st =
      { st with dirtySinceLastPersist := d, wsDirtyWhileSaving := w } := by
  unfold dirtyMarkEffect
  repeat first
    | exact ⟨_, _, rfl⟩
    | split
    | dsimp only

/-- `flushPendingHistoryCommit` writes only history bookkeeping fields. -/
lemma flushPendingHistoryCommit_shape (st : EditorState) :
    ∃ u r b p t, flushPendingHistoryCommit st =
      { st with undoStack := u, redoStack := r, historyBaseline := b,
                historyPendingFrom := p, historyTimerArmed := t } := by
  unfold flushPendingHistoryCommit
  repeat first
    | exact ⟨_, _, _, _, _, rfl⟩
    | split
    | dsimp only


/-- Fields preserved by the history-capture effect, one projection lemma per
field, all derived from `historyCaptureEffect_shape`. -/
lemma historyCaptureEffect_turmaId (st : EditorState) :
    (historyCaptureEffect st).turmaId = st.turmaId := by
  obtain ⟨u, r, b, p, t, i, h⟩ := historyCaptureEffect_shape st
  rw [h]

lemma historyCaptureEffect_clientId (st : EditorState) :
    (historyCaptureEffect st).clientId = st.clientId := by
  obtain ⟨u, r, b, p, t, i, h⟩ := historyCaptureEffect_shape st
  rw [h]

lemma historyCaptureEffect_slides (st : EditorState) :
    (historyCaptureEffect st).slides = st.slides := by
  obtain ⟨u, r, b, p, t, i, h⟩ := historyCaptureEffect_shape st
  rw [h]

lemma historyCaptureEffect_currentSlideId (st : EditorState) :
    (historyCaptureEffect st).currentSlideId = st.currentSlideId := by
  obtain ⟨u, r, b, p, t, i, h⟩ := historyCaptureEffect_shape st
  rw [h]

lemma historyCaptureEffect_loading (st : EditorState) :
    (historyCaptureEffect st).loading = st.loading := by
  obtain ⟨u, r, b, p, t, i, h⟩ := historyCaptureEffect_shape st
  rw [h]

lemma historyCaptureEffect_loadedFromApi (st : EditorState) :
    (historyCaptureEffect st).loadedFromApi = st.loadedFromApi := by
  obtain ⟨u, r, b, p, t, i, h⟩ := historyCaptureEffect_shape st
  rw [h]

lemma historyCaptureEffect_canSaveToApi (st : EditorState) :
    (historyCaptureEffect st).canSaveToApi = st.canSaveToApi := by
  obtain ⟨u, r, b, p, t, i, h⟩ := historyCaptureEffect_shape st
  rw [h]

lemma historyCaptureEffect_wsConnected (st : EditorState) :
    (historyCaptureEffect st).wsConnected = st.wsConnected := by
  obtain ⟨u, r, b, p, t, i, h⟩ := historyCaptureEffect_shape st
  rw [h]

lemma historyCaptureEffect_clientConnected (st : EditorState) :
    (historyCaptureEffect st).clientConnected = st.clientConnected := by
  obtain ⟨u, r, b, p, t, i, h⟩ := historyCaptureEffect_shape st
  rw [h]

lemma historyCaptureEffect_instrumentoVersion (st : EditorState) :
    (historyCaptureEffect st).instrumentoVersion = st.instrumentoVersion := by
  obtain ⟨u, r, b, p, t, i, h⟩ := historyCaptureEffect_shape st
  rw [h]

lemma historyCaptureEffect_versionRef (st : EditorState) :
    (historyCaptureEffect st).versionRef = st.versionRef := by
  obtain ⟨u, r, b, p, t, i, h⟩ := historyCaptureEffect_shape st
  rw [h]

lemma historyCaptureEffect_applyingRemote (st : EditorState) :
    (historyCaptureEffect st).applyingRemote = st.applyingRemote := by
  obtain ⟨u, r, b, p, t, i, h⟩ := historyCaptureEffect_shape st
  rw [h]

lemma historyCaptureEffect_pendingWsSave (st : EditorState) :
    (historyCaptureEffect st).pendingWsSave = st.pendingWsSave := by
  obtain ⟨u, r, b, p, t, i, h⟩ := historyCaptureEffect_shape st
  rw [h]

lemma historyCaptureEffect_wsDirtyWhileSaving (st : EditorState) :
    (historyCaptureEffect st).wsDirtyWhileSaving = st.wsDirtyWhileSaving := by
  obtain ⟨u, r, b, p, t, i, h⟩ := historyCaptureEffect_shape st
  rw [h]

lemma historyCaptureEffect_pendingWsSavedJson (st : EditorState) :
    (historyCaptureEffect st).pendingWsSavedJson = st.pendingWsSavedJson := by
  obtain ⟨u, r, b, p, t, i, h⟩ := historyCaptureEffect_shape st
  rw [h]

lemma historyCaptureEffect_lastSavedSlidesJson (st : EditorState) :
    (historyCaptureEffect st).lastSavedSlidesJson = st.lastSavedSlidesJson := by
  obtain ⟨u, r, b, p, t, i, h⟩ := historyCaptureEffect_shape st
  rw [h]

lemma historyCaptureEffect_dirtySinceLastPersist (st : EditorState) :
    (historyCaptureEffect st).dirtySinceLastPersist = st.dirtySinceLastPersist := by
  obtain ⟨u, r, b, p, t, i, h⟩ := historyCaptureEffect_shape st
  rw [h]

lemma historyCaptureEffect_suppressAutosaveUntil (st : EditorState) :
    (historyCaptureEffect st).suppressAutosaveUntil = st.suppressAutosaveUntil := by
  obtain ⟨u, r, b, p, t, i, h⟩ := historyCaptureEffect_shape st
  rw [h]

lemma historyCaptureEffect_conflictRetryLastAt (st : EditorState) :
    (historyCaptureEffect st).conflictRetryLastAt = st.conflictRetryLastAt := by
  obtain ⟨u, r, b, p, t, i, h⟩ := historyCaptureEffect_shape st
  rw [h]

lemma historyCaptureEffect_conflictRetryLastActual (st : EditorState) :
    (historyCaptureEffect st).conflictRetryLastActual = st.conflictRetryLastActual := by
  obtain ⟨u, r, b, p, t, i, h⟩ := historyCaptureEffect_shape st
  rw [h]

lemma historyCaptureEffect_saveStatus (st : EditorState) :
    (historyCaptureEffect st).saveStatus = st.saveStatus := by
  obtain ⟨u, r, b, p, t, i, h⟩ := historyCaptureEffect_shape st
  rw [h]

lemma historyCaptureEffect_lastSaveError (st : EditorState) :
    (historyCaptureEffect st).lastSaveError = st.lastSaveError := by
  obtain ⟨u, r, b, p, t, i, h⟩ := historyCaptureEffect_shape st
  rw [h]

lemma historyCaptureEffect_isApplyingHistory (st : EditorState) :
    (historyCaptureEffect st).isApplyingHistory = st.isApplyingHistory := by
  obtain ⟨u, r, b, p, t, i, h⟩ := historyCaptureEffect_shape st
  rw [h]

/-- Fields preserved by the dirty-marking effect, derived from
`dirtyMarkEffect_shape`. -/
lemma dirtyMarkEffect_turmaId (now : Nat) (st : EditorState) :
    (dirtyMarkEffect now st).turmaId = st.turmaId := by
  obtain ⟨d, w, h⟩ := dirtyMarkEffect_shape now st
  rw [h]

lemma dirtyMarkEffect_clientId (now : Nat) (st : EditorState) :
    (dirtyMarkEffect now st).clientId = st.clientId := by
  obtain ⟨d, w, h⟩ := dirtyMarkEffect_shape now st
  rw [h]

lemma dirtyMarkEffect_slides (now : Nat) (st : EditorState) :
    (dirtyMarkEffect now st).slides = st.slides := by
  obtain ⟨d, w, h⟩ := dirtyMarkEffect_shape now st
  rw [h]

lemma dirtyMarkEffect_currentSlideId (now : Nat) (st : EditorState) :
    (dirtyMarkEffect now st).currentSlideId = st.currentSlideId := by
  obtain ⟨d, w, h⟩ := dirtyMarkEffect_shape now st
  rw [h]

lemma dirtyMarkEffect_loading (now : Nat) (st : EditorState) :
    (dirtyMarkEffect now st).loading = st.loading := by
  obtain ⟨d, w, h⟩ := dirtyMarkEffect_shape now st
  rw [h]

lemma dirtyMarkEffect_loadedFromApi (now : Nat) (st : EditorState) :
    (dirtyMarkEffect now st).loadedFromApi = st.loadedFromApi := by
  obtain ⟨d, w, h⟩ := dirtyMarkEffect_shape now st
  rw [h]

lemma dirtyMarkEffect_canSaveToApi (now : Nat) (st : EditorState) :
    (dirtyMarkEffect now st).canSaveToApi = st.canSaveToApi := by
  obtain ⟨d, w, h⟩ := dirtyMarkEffect_shape now st
  rw [h]

lemma dirtyMarkEffect_wsConnected (now : Nat) (st : EditorState) :
    (dirtyMarkEffect now st).wsConnected = st.wsConnected := by
  obtain ⟨d, w, h⟩ := dirtyMarkEffect_shape now st
  rw [h]

lemma dirtyMarkEffect_clientConnected (now : Nat) (st : EditorState) :
    (dirtyMarkEffect now st).clientConnected = st.clientConnected := by
  obtain ⟨d, w, h⟩ := dirtyMarkEffect_shape now st
  rw [h]

lemma dirtyMarkEffect_instrumentoVersion (now : Nat) (st : EditorState) :
    (dirtyMarkEffect now st).instrumentoVersion = st.instrumentoVersion := by
  obtain ⟨d, w, h⟩ := dirtyMarkEffect_shape now st
  rw [h]

lemma dirtyMarkEffect_versionRef (now : Nat) (st : EditorState) :
    (dirtyMarkEffect now st).versionRef = st.versionRef := by
  obtain ⟨d, w, h⟩ := dirtyMarkEffect_shape now st
  rw [h]

lemma dirtyMarkEffect_applyingRemote (now : Nat) (st : EditorState) :
    (dirtyMarkEffect now st).applyingRemote = st.applyingRemote := by
  obtain ⟨d, w, h⟩ := dirtyMarkEffect_shape now st
  rw [h]

lemma dirtyMarkEffect_pendingWsSave (now : Nat) (st : EditorState) :
    (dirtyMarkEffect now st).pendingWsSave = st.pendingWsSave := by
  obtain ⟨d, w, h⟩ := dirtyMarkEffect_shape now st
  rw [h]

lemma dirtyMarkEffect_pendingWsSavedJson (now : Nat) (st : EditorState) :
    (dirtyMarkEffect now st).pendingWsSavedJson = st.pendingWsSavedJson := by
  obtain ⟨d, w, h⟩ := dirtyMarkEffect_shape now st
  rw [h]

lemma dirtyMarkEffect_lastSavedSlidesJson (now : Nat) (st : EditorState) :
    (dirtyMarkEffect now st).lastSavedSlidesJson = st.lastSavedSlidesJson := by
  obtain ⟨d, w, h⟩ := dirtyMarkEffect_shape now st
  rw [h]

lemma dirtyMarkEffect_suppressAutosaveUntil (now : Nat) (st : EditorState) :
    (dirtyMarkEffect now st).suppressAutosaveUntil = st.suppressAutosaveUntil := by
  obtain ⟨d, w, h⟩ := dirtyMarkEffect_shape now st
  rw [h]

lemma dirtyMarkEffect_conflictRetryLastAt (now : Nat) (st : EditorState) :
    (dirtyMarkEffect now st).conflictRetryLastAt = st.conflictRetryLastAt := by
  obtain ⟨d, w, h⟩ := dirtyMarkEffect_shape now st
  rw [h]

lemma dirtyMarkEffect_conflictRetryLastActual (now : Nat) (st : EditorState) :
    (dirtyMarkEffect now st).conflictRetryLastActual = st.conflictRetryLastActual := by
  obtain ⟨d, w, h⟩ := dirtyMarkEffect_shape now st
  rw [h]

lemma dirtyMarkEffect_saveStatus (now : Nat) (st : EditorState) :
    (dirtyMarkEffect now st).saveStatus = st.saveStatus := by
  obtain ⟨d, w, h⟩ := dirtyMarkEffect_shape now st
  rw [h]

lemma dirtyMarkEffect_lastSaveError (now : Nat) (st : EditorState) :
    (dirtyMarkEffect now st).lastSaveError = st.lastSaveError := by
  obtain ⟨d, w, h⟩ := dirtyMarkEffect_shape now st
  rw [h]

lemma dirtyMarkEffect_undoStack (now : Nat) (st : EditorState) :
    (dirtyMarkEffect now st).undoStack = st.undoStack := by
  obtain ⟨d, w, h⟩ := dirtyMarkEffect_shape now st
  rw [h]

lemma dirtyMarkEffect_redoStack (now : Nat) (st : EditorState) :
    (dirtyMarkEffect now st).redoStack = st.redoStack := by
  obtain ⟨d, w, h⟩ := dirtyMarkEffect_shape now st
  rw [h]

lemma dirtyMarkEffect_historyBaseline (now : Nat) (st : EditorState) :
    (dirtyMarkEffect now st).historyBaseline = st.historyBaseline := by
  obtain ⟨d, w, h⟩ := dirtyMarkEffect_shape now st
  rw [h]

lemma dirtyMarkEffect_historyPendingFrom (now : Nat) (st : EditorState) :
    (dirtyMarkEffect now st).historyPendingFrom = st.historyPendingFrom := by
  obtain ⟨d, w, h⟩ := dirtyMarkEffect_shape now st
  rw [h]

lemma dirtyMarkEffect_historyTimerArmed (now : Nat) (st : EditorState) :
    (dirtyMarkEffect now st).historyTimerArmed = st.historyTimerArmed := by
  obtain ⟨d, w, h⟩ := dirtyMarkEffect_shape now st
  rw [h]

lemma dirtyMarkEffect_historyInitialized (now : Nat) (st : EditorState) :
    (dirtyMarkEffect now st).historyInitialized = st.historyInitialized := by
  obtain ⟨d, w, h⟩ := dirtyMarkEffect_shape now st
  rw [h]

lemma dirtyMarkEffect_isApplyingHistory (now : Nat) (st : EditorState) :
    (dirtyMarkEffect now st).isApplyingHistory = st.isApplyingHistory := by
  obtain ⟨d, w, h⟩ := dirtyMarkEffect_shape now st
  rw [h]

/-- Fields preserved by `flushPendingHistoryCommit`, derived from
`flushPendingHistoryCommit_shape`. -/
lemma flushPendingHistoryCommit_turmaId (st : EditorState) :
    (flushPendingHistoryCommit st).turmaId = st.turmaId := by
  obtain ⟨u, r, b, p, t, h⟩ := flushPendingHistoryCommit_shape st
  rw [h]

lemma flushPendingHistoryCommit_clientId (st : EditorState) :
    (flushPendingHistoryCommit st).clientId = st.clientId := by
  obtain ⟨u, r, b, p, t, h⟩ := flushPendingHistoryCommit_shape st
  rw [h]

lemma flushPendingHistoryCommit_slides (st : EditorState) :
    (flushPendingHistoryCommit st).slides = st.slides := by
  obtain ⟨u, r, b, p, t, h⟩ := flushPendingHistoryCommit_shape st
  rw [h]

lemma flushPendingHistoryCommit_currentSlideId (st : EditorState) :
    (flushPendingHistoryCommit st).currentSlideId = st.currentSlideId := by
  obtain ⟨u, r, b, p, t, h⟩ := flushPendingHistoryCommit_shape st
  rw [h]

lemma flushPendingHistoryCommit_loading (st : EditorState) :
    (flushPendingHistoryCommit st).loading = st.loading := by
  obtain ⟨u, r, b, p, t, h⟩ := flushPendingHistoryCommit_shape st
  rw [h]

lemma flushPendingHistoryCommit_loadedFromApi (st : EditorState) :
    (flushPendingHistoryCommit st).loadedFromApi = st.loadedFromApi := by
  obtain ⟨u, r, b, p, t, h⟩ := flushPendingHistoryCommit_shape st
  rw [h]

lemma flushPendingHistoryCommit_canSaveToApi (st : EditorState) :
    (flushPendingHistoryCommit st).canSaveToApi = st.canSaveToApi := by
  obtain ⟨u, r, b, p, t, h⟩ := flushPendingHistoryCommit_shape st
  rw [h]

lemma flushPendingHistoryCommit_wsConnected (st : EditorState) :
    (flushPendingHistoryCommit st).wsConnected = st.wsConnected := by
  obtain ⟨u, r, b, p, t, h⟩ := flushPendingHistoryCommit_shape st
  rw [h]

lemma flushPendingHistoryCommit_clientConnected (st : EditorState) :
    (flushPendingHistoryCommit st).clientConnected = st.clientConnected := by
  obtain ⟨u, r, b, p, t, h⟩ := flushPendingHistoryCommit_shape st
  rw [h]

lemma flushPendingHistoryCommit_instrumentoVersion (st : EditorState) :
    (flushPendingHistoryCommit st).instrumentoVersion = st.instrumentoVersion := by
  obtain ⟨u, r, b, p, t, h⟩ := flushPendingHistoryCommit_shape st
  rw [h]

lemma flushPendingHistoryCommit_versionRef (st : EditorState) :
    (flushPendingHistoryCommit st).versionRef = st.versionRef := by
  obtain ⟨u, r, b, p, t, h⟩ := flushPendingHistoryCommit_shape st
  rw [h]

lemma flushPendingHistoryCommit_applyingRemote (st : EditorState) :
    (flushPendingHistoryCommit st).applyingRemote = st.applyingRemote := by
  obtain ⟨u, r, b, p, t, h⟩ := flushPendingHistoryCommit_shape st
  rw [h]

lemma flushPendingHistoryCommit_pendingWsSave (st : EditorState) :
    (flushPendingHistoryCommit st).pendingWsSave = st.pendingWsSave := by
  obtain ⟨u, r, b, p, t, h⟩ := flushPendingHistoryCommit_shape st
  rw [h]

lemma flushPendingHistoryCommit_wsDirtyWhileSaving (st : EditorState) :
    (flushPendingHistoryCommit st).wsDirtyWhileSaving = st.wsDirtyWhileSaving := by
  obtain ⟨u, r, b, p, t, h⟩ := flushPendingHistoryCommit_shape st
  rw [h]

lemma flushPendingHistoryCommit_pendingWsSavedJson (st : EditorState) :
    (flushPendingHistoryCommit st).pendingWsSavedJson = st.pendingWsSavedJson := by
  obtain ⟨u, r, b, p, t, h⟩ := flushPendingHistoryCommit_shape st
  rw [h]

lemma flushPendingHistoryCommit_lastSavedSlidesJson (st : EditorState) :
    (flushPendingHistoryCommit st).lastSavedSlidesJson = st.lastSavedSlidesJson := by
  obtain ⟨u, r, b, p, t, h⟩ := flushPendingHistoryCommit_shape st
  rw [h]

lemma flushPendingHistoryCommit_dirtySinceLastPersist (st : EditorState) :
    (flushPendingHistoryCommit st).dirtySinceLastPersist = st.dirtySinceLastPersist := by
  obtain ⟨u, r, b, p, t, h⟩ := flushPendingHistoryCommit_shape st
  rw [h]

lemma flushPendingHistoryCommit_suppressAutosaveUntil (st : EditorState) :
    (flushPendingHistoryCommit st).suppressAutosaveUntil = st.suppressAutosaveUntil := by
  obtain ⟨u, r, b, p, t, h⟩ := flushPendingHistoryCommit_shape st
  rw [h]

lemma flushPendingHistoryCommit_conflictRetryLastAt (st : EditorState) :
    (flushPendingHistoryCommit st).conflictRetryLastAt = st.conflictRetryLastAt := by
  obtain ⟨u, r, b, p, t, h⟩ := flushPendingHistoryCommit_shape st
  rw [h]

lemma flushPendingHistoryCommit_conflictRetryLastActual (st : EditorState) :
    (flushPendingHistoryCommit st).conflictRetryLastActual = st.conflictRetryLastActual := by
  obtain ⟨u, r, b, p, t, h⟩ := flushPendingHistoryCommit_shape st
  rw [h]

lemma flushPendingHistoryCommit_saveStatus (st : EditorState) :
    (flushPendingHistoryCommit st).saveStatus = st.saveStatus := by
  obtain ⟨u, r, b, p, t, h⟩ := flushPendingHistoryCommit_shape st
  rw [h]

lemma flushPendingHistoryCommit_lastSaveError (st : EditorState) :
    (flushPendingHistoryCommit st).lastSaveError = st.lastSaveError := by
  obtain ⟨u, r, b, p, t, h⟩ := flushPendingHistoryCommit_shape st
  rw [h]

lemma flushPendingHistoryCommit_historyInitialized (st : EditorState) :
    (flushPendingHistoryCommit st).historyInitialized = st.historyInitialized := by
  obtain ⟨u, r, b, p, t, h⟩ := flushPendingHistoryCommit_shape st
  rw [h]

lemma flushPendingHistoryCommit_isApplyingHistory (st : EditorState) :
    (flushPendingHistoryCommit st).isApplyingHistory = st.isApplyingHistory := by
  obtain ⟨u, r, b, p, t, h⟩ := flushPendingHistoryCommit_shape st
  rw [h]

/-- A local edit sets the slides to the mutated value. -/
lemma applyLocalEdit_slides (now : Nat) (s : Snapshot) (st : EditorState) :
    (applyLocalEdit now s st).slides = s := by
  unfold applyLocalEdit
  rw [dirtyMarkEffect_slides, historyCaptureEffect_slides]

lemma applyLocalEdit_turmaId (now : Nat) (s : Snapshot) (st : EditorState) :
    (applyLocalEdit now s st).turmaId = st.turmaId := by
  unfold applyLocalEdit
  rw [dirtyMarkEffect_turmaId, historyCaptureEffect_turmaId]

lemma applyLocalEdit_clientId (now : Nat) (s : Snapshot) (st : EditorState) :
    (applyLocalEdit now s st).clientId = st.clientId := by
  unfold applyLocalEdit
  rw [dirtyMarkEffect_clientId, historyCaptureEffect_clientId]

lemma applyLocalEdit_currentSlideId (now : Nat) (s : Snapshot) (st : EditorState) :
    (applyLocalEdit now s st).currentSlideId = st.currentSlideId := by
  unfold applyLocalEdit
  rw [dirtyMarkEffect_currentSlideId, historyCaptureEffect_currentSlideId]

lemma applyLocalEdit_loading (now : Nat) (s : Snapshot) (st : EditorState) :
    (applyLocalEdit now s st).loading = st.loading := by
  unfold applyLocalEdit
  rw [dirtyMarkEffect_loading, historyCaptureEffect_loading]

lemma applyLocalEdit_loadedFromApi (now : Nat) (s : Snapshot) (st : EditorState) :
    (applyLocalEdit now s st).loadedFromApi = st.loadedFromApi := by
  unfold applyLocalEdit
  rw [dirtyMarkEffect_loadedFromApi, historyCaptureEffect_loadedFromApi]

lemma applyLocalEdit_canSaveToApi (now : Nat) (s : Snapshot) (st : EditorState) :
    (applyLocalEdit now s st).canSaveToApi = st.canSaveToApi := by
  unfold applyLocalEdit
  rw [dirtyMarkEffect_canSaveToApi, historyCaptureEffect_canSaveToApi]

lemma applyLocalEdit_wsConnected (now : Nat) (s : Snapshot) (st : EditorState) :
    (applyLocalEdit now s st).wsConnected = st.wsConnected := by
  unfold applyLocalEdit
  rw [dirtyMarkEffect_wsConnected, historyCaptureEffect_wsConnected]

lemma applyLocalEdit_clientConnected (now : Nat) (s : Snapshot) (st : EditorState) :
    (applyLocalEdit now s st).clientConnected = st.clientConnected := by
  unfold applyLocalEdit
  rw [dirtyMarkEffect_clientConnected, historyCaptureEffect_clientConnected]

lemma applyLocalEdit_instrumentoVersion (now : Nat) (s : Snapshot) (st : EditorState) :
    (applyLocalEdit now s st).instrumentoVersion = st.instrumentoVersion := by
  unfold applyLocalEdit
  rw [dirtyMarkEffect_instrumentoVersion, historyCaptureEffect_instrumentoVersion]

lemma applyLocalEdit_versionRef (now : Nat) (s : Snapshot) (st : EditorState) :
    (applyLocalEdit now s st).versionRef = st.versionRef := by
  unfold applyLocalEdit
  rw [dirtyMarkEffect_versionRef, historyCaptureEffect_versionRef]

lemma applyLocalEdit_applyingRemote (now : Nat) (s : Snapshot) (st : EditorState) :
    (applyLocalEdit now s st).applyingRemote = st.applyingRemote := by
  unfold applyLocalEdit
  rw [dirtyMarkEffect_applyingRemote, historyCaptureEffect_applyingRemote]

lemma applyLocalEdit_pendingWsSave (now : Nat) (s : Snapshot) (st : EditorState) :
    (applyLocalEdit now s st).pendingWsSave = st.pendingWsSave := by
  unfold applyLocalEdit
  rw [dirtyMarkEffect_pendingWsSave, historyCaptureEffect_pendingWsSave]

lemma applyLocalEdit_pendingWsSavedJson (now : Nat) (s : Snapshot) (st : EditorState) :
    (applyLocalEdit now s st).pendingWsSavedJson = st.pendingWsSavedJson := by
  unfold applyLocalEdit
  rw [dirtyMarkEffect_pendingWsSavedJson, historyCaptureEffect_pendingWsSavedJson]

lemma applyLocalEdit_lastSavedSlidesJson (now : Nat) (s : Snapshot) (st : EditorState) :
    (applyLocalEdit now s st).lastSavedSlidesJson = st.lastSavedSlidesJson := by
  unfold applyLocalEdit
  rw [dirtyMarkEffect_lastSavedSlidesJson, historyCaptureEffect_lastSavedSlidesJson]

lemma applyLocalEdit_suppressAutosaveUntil (now : Nat) (s : Snapshot) (st : EditorState) :
    (applyLocalEdit now s st).suppressAutosaveUntil = st.suppressAutosaveUntil := by
  unfold applyLocalEdit
  rw [dirtyMarkEffect_suppressAutosaveUntil, historyCaptureEffect_suppressAutosaveUntil]

lemma applyLocalEdit_conflictRetryLastAt (now : Nat) (s : Snapshot) (st : EditorState) :
    (applyLocalEdit now s st).conflictRetryLastAt = st.conflictRetryLastAt := by
  unfold applyLocalEdit
  rw [dirtyMarkEffect_conflictRetryLastAt, historyCaptureEffect_conflictRetryLastAt]

lemma applyLocalEdit_conflictRetryLastActual (now : Nat) (s : Snapshot) (st : EditorState) :
    (applyLocalEdit now s st).conflictRetryLastActual = st.conflictRetryLastActual := by
  unfold applyLocalEdit
  rw [dirtyMarkEffect_conflictRetryLastActual, historyCaptureEffect_conflictRetryLastActual]

lemma applyLocalEdit_saveStatus (now : Nat) (s : Snapshot) (st : EditorState) :
    (applyLocalEdit now s st).saveStatus = st.saveStatus := by
  unfold applyLocalEdit
  rw [dirtyMarkEffect_saveStatus, historyCaptureEffect_saveStatus]

lemma applyLocalEdit_lastSaveError (now : Nat) (s : Snapshot) (st : EditorState) :
    (applyLocalEdit now s st).lastSaveError = st.lastSaveError := by
  unfold applyLocalEdit
  rw [dirtyMarkEffect_lastSaveError, historyCaptureEffect_lastSaveError]

lemma applyLocalEdit_isApplyingHistory (now : Nat) (s : Snapshot) (st : EditorState) :
    (applyLocalEdit now s st).isApplyingHistory = st.isApplyingHistory := by
  unfold applyLocalEdit
  rw [dirtyMarkEffect_isApplyingHistory, historyCaptureEffect_isApplyingHistory]

/-- While a remote snapshot is being applied (`applyingRemoteRef` true), the
dirty-marking effect is a no-op. -/
lemma dirtyMarkEffect_remote_id (now : Nat) (st : EditorState)
    (h : st.applyingRemote = true) : dirtyMarkEffect now st = st := by
  unfold dirtyMarkEffect
  repeat first
    | rfl
    | contradiction
    | split
    | dsimp only

/-- Inside the suppression window the dirty-marking effect is a no-op. -/
lemma dirtyMarkEffect_suppressed_id (now : Nat) (st : EditorState)
    (h : now < st.suppressAutosaveUntil) : dirtyMarkEffect now st = st := by
  unfold dirtyMarkEffect
  repeat first
    | rfl
    | contradiction
    | split
    | dsimp only

/-- On an initialized history, a mutation applied with the remote flag set
resets the baseline and clears both stacks. -/
lemma historyCaptureEffect_remote_eq (st : EditorState)
    (hA : st.isApplyingHistory = false) (hR : st.applyingRemote = true)
    (hI : st.historyInitialized = true) :
    historyCaptureEffect st =
      { st with historyBaseline := some st.slides, undoStack := [], redoStack := [],
                historyPendingFrom := none, historyTimerArmed := false } := by
  simp_all [historyCaptureEffect, initHistoryIfNeeded]

/-- Same as `historyCaptureEffect_remote_eq` but also covering a history that
initializes during this very effect run (the editor just became ready). -/
lemma historyCaptureEffect_remote_init_eq (st : EditorState)
    (hA : st.isApplyingHistory = false) (hR : st.applyingRemote = true)
    (hG : (st.turmaId.isSome && (st.loading || !st.loadedFromApi)) = false) :
    historyCaptureEffect st =
      { st with historyBaseline := some st.slides, undoStack := [], redoStack := [],
                historyPendingFrom := none, historyTimerArmed := false,
                historyInitialized := true } := by
  cases hInit : st.historyInitialized <;> cases hT : st.turmaId.isSome <;>
    simp_all [historyCaptureEffect, initHistoryIfNeeded]

/-- Flushing with no pending burst and a baseline equal to the current state
changes nothing. -/
lemma flushPendingHistoryCommit_id (st : EditorState)
    (hI : st.historyInitialized = true) (hT : st.historyTimerArmed = false)
    (hP : st.historyPendingFrom = none) (hB : st.historyBaseline = some st.slides) :
    flushPendingHistoryCommit st = st := by
  cases st
  simp_all [flushPendingHistoryCommit]

/-- An undo keystroke on an idle history with an empty undo stack is a no-op. -/
lemma applyUndoKey_noop (m : Nat) (st : EditorState)
    (hI : st.historyInitialized = true) (hT : st.historyTimerArmed = false)
    (hP : st.historyPendingFrom = none) (hB : st.historyBaseline = some st.slides)
    (hU : st.undoStack = []) :
    applyUndoKey m st = st := by
  have h1 : initHistoryIfNeeded st = st := by
    unfold initHistoryIfNeeded
    rw [if_pos hI]
  have h2 := flushPendingHistoryCommit_id st hI hT hP hB
  unfold applyUndoKey
  rw [h1]
  simp only [hI, Bool.not_true, Bool.false_eq_true, if_false, h2, hU]

/-- A local edit inside the suppression window leaves the dirty flag as it
was. -/
lemma applyLocalEdit_suppressed_dirty (now : Nat) (s : Snapshot) (st : EditorState)
    (h : now < st.suppressAutosaveUntil) :
    (applyLocalEdit now s st).dirtySinceLastPersist = st.dirtySinceLastPersist := by
  unfold applyLocalEdit
  rw [dirtyMarkEffect_suppressed_id now _
        (by rw [historyCaptureEffect_suppressAutosaveUntil]; exact h),
      historyCaptureEffect_dirtySinceLastPersist]

/-- A whole sequence of local edits inside the suppression window leaves the
dirty flag and the window end as they were. -/
lemma applyLocalEdits_suppressed (edits : List (Nat × Snapshot)) :
    ∀ st : EditorState,
      (∀ q ∈ edits, q.1 < st.suppressAutosaveUntil) →
      (applyLocalEdits edits st).dirtySinceLastPersist = st.dirtySinceLastPersist ∧
      (applyLocalEdits edits st).suppressAutosaveUntil = st.suppressAutosaveUntil := by
  induction edits with
  | nil => exact fun st _ => ⟨rfl, rfl⟩
  | cons q rest ih =>
    intro st h
    have hq := h q (by simp)
    have h1 := applyLocalEdit_suppressed_dirty q.1 q.2 st hq
    have h2 := applyLocalEdit_suppressAutosaveUntil q.1 q.2 st
    have hrest := ih (applyLocalEdit q.1 q.2 st)
      (by intro r hr; rw [h2]; exact h r (List.mem_cons_of_mem q hr))
    unfold applyLocalEdits at *
    simp only [List.foldl_cons]
    exact ⟨by rw [hrest.1, h1], by rw [hrest.2, h2]⟩

/-- Claim C2 (echo idempotence): a broadcast whose clientId equals this
connection's own (non-empty, as generated by `getClientId`) clientId never
modifies the slides or the history stacks; the handler only does bookkeeping —
it adopts the broadcast's version (when the payload carries a number), leaves
the in-flight flag clear, and, when a publish was in flight, records the
pending snapshot as last saved, clears the dirty flag, clears the error and
sets the save status to saved. -/
theorem echo_idempotence (st : EditorState) (p : UpdateBroadcast) (now : Nat)
    (hCid : p.clientId = some st.clientId) (hNe : st.clientId ≠ "") :
    (updatesTopicHandler now p st).1.slides = st.slides ∧
    (updatesTopicHandler now p st).1.currentSlideId = st.currentSlideId ∧
    (updatesTopicHandler now p st).1.undoStack = st.undoStack ∧
    (updatesTopicHandler now p st).1.redoStack = st.redoStack ∧
    (∀ v, p.version = some v →
      (updatesTopicHandler now p st).1.instrumentoVersion = some v ∧
      (updatesTopicHandler now p st).1.versionRef = some v) ∧
    (updatesTopicHandler now p st).1.pendingWsSave = false ∧
    (st.pendingWsSave = true →
      (updatesTopicHandler now p st).1.dirtySinceLastPersist = false ∧
      (updatesTopicHandler now p st).1.saveStatus = SaveStatus.saved ∧
      (updatesTopicHandler now p st).1.lastSaveError = none ∧
      (∀ j, st.pendingWsSavedJson = some j →
        (updatesTopicHandler now p st).1.lastSavedSlidesJson = some j)) := by
  cases hv : p.version <;> cases hp : st.pendingWsSave <;>
    cases hj : st.pendingWsSavedJson <;> cases hw : st.wsDirtyWhileSaving <;>
      simp_all [updatesTopicHandler, isOwnEcho, jsTruthy]

/-- The own-echo state used to instantiate `echo_idempotence`. -/
def echoSt : EditorState :=
  { baseState with pendingWsSave := true, pendingWsSavedJson := some [⟨3, 3⟩],
                   dirtySinceLastPersist := true, saveStatus := SaveStatus.saving }

/-- The own-echo broadcast used to instantiate `echo_idempotence`. -/
def echoP : UpdateBroadcast :=
  { version := some 6, clientId := some ("17000-abc"), slides := some [⟨9, 9⟩] }

/-- Witness for `echo_idempotence` on concrete inputs. -/
theorem echo_idempotence_witness :
    (echoP.clientId = some echoSt.clientId ∧ echoSt.clientId ≠ "") ∧
    ((updatesTopicHandler 0 echoP echoSt).1.slides = echoSt.slides ∧
     (updatesTopicHandler 0 echoP echoSt).1.currentSlideId = echoSt.currentSlideId ∧
     (updatesTopicHandler 0 echoP echoSt).1.undoStack = echoSt.undoStack ∧
     (updatesTopicHandler 0 echoP echoSt).1.redoStack = echoSt.redoStack ∧
     (∀ v, echoP.version = some v →
       (updatesTopicHandler 0 echoP echoSt).1.instrumentoVersion = some v ∧
       (updatesTopicHandler 0 echoP echoSt).1.versionRef = some v) ∧
     (updatesTopicHandler 0 echoP echoSt).1.pendingWsSave = false ∧
     (echoSt.pendingWsSave = true →
       (updatesTopicHandler 0 echoP echoSt).1.dirtySinceLastPersist = false ∧
       (updatesTopicHandler 0 echoP echoSt).1.saveStatus = SaveStatus.saved ∧
       (updatesTopicHandler 0 echoP echoSt).1.lastSaveError = none ∧
       (∀ j, echoSt.pendingWsSavedJson = some j →
         (updatesTopicHandler 0 echoP echoSt).1.lastSavedSlidesJson = some j))) :=
  ⟨⟨by decide, by decide⟩, echo_idempotence echoSt echoP 0 (by decide) (by decide)⟩

/-- Claim C7 (foreign-broadcast wholesale apply): a broadcast that is not this
client's own echo and whose slides payload is an array replaces the local
slides wholesale, clears the dirty flag, records the payload as the last-saved
snapshot and adopts the broadcast's version (the wire contract always carries
a numeric version; the handler adopts it whenever it is a number). -/
theorem foreign_broadcast_apply (st : EditorState) (p : UpdateBroadcast)
    (now : Nat) (ss : Snapshot)
    (hEcho : isOwnEcho p st = false) (hS : p.slides = some ss) :
    (updatesTopicHandler now p st).1.slides = ss ∧
    (updatesTopicHandler now p st).1.dirtySinceLastPersist = false ∧
    (updatesTopicHandler now p st).1.lastSavedSlidesJson = some ss ∧
    (∀ v, p.version = some v →
      (updatesTopicHandler now p st).1.instrumentoVersion = some v ∧
      (updatesTopicHandler now p st).1.versionRef = some v) := by
  cases hv : p.version <;> cases hss : ss <;>
    simp_all [updatesTopicHandler, isOwnEcho, jsTruthy,
      dirtyMarkEffect_remote_id, historyCaptureEffect_slides,
      historyCaptureEffect_dirtySinceLastPersist,
      historyCaptureEffect_lastSavedSlidesJson,
      historyCaptureEffect_instrumentoVersion,
      historyCaptureEffect_versionRef,
      historyCaptureEffect_applyingRemote,
      dirtyMarkEffect_slides, dirtyMarkEffect_lastSavedSlidesJson,
      dirtyMarkEffect_instrumentoVersion, dirtyMarkEffect_versionRef]

/-- The foreign broadcast used to instantiate `foreign_broadcast_apply`. -/
def foreignP : UpdateBroadcast :=
  { version := some 6, clientId := some ("other-tab"), slides := some [⟨9, 9⟩] }

/-- Witness for `foreign_broadcast_apply` on concrete inputs. -/
theorem foreign_broadcast_apply_witness :
    (isOwnEcho foreignP baseState = false ∧ foreignP.slides = some [⟨9, 9⟩]) ∧
    ((updatesTopicHandler 0 foreignP baseState).1.slides = [⟨9, 9⟩] ∧
     (updatesTopicHandler 0 foreignP baseState).1.dirtySinceLastPersist = false ∧
     (updatesTopicHandler 0 foreignP baseState).1.lastSavedSlidesJson = some [⟨9, 9⟩] ∧
     (∀ v, foreignP.version = some v →
       (updatesTopicHandler 0 foreignP baseState).1.instrumentoVersion = some v ∧
       (updatesTopicHandler 0 foreignP baseState).1.versionRef = some v)) :=
  ⟨⟨by decide, by decide⟩,
   foreign_broadcast_apply baseState foreignP 0 [⟨9, 9⟩] (by decide) (by decide)⟩

/-- Claim C9 (suppression window): each of a foreign broadcast application, a
load hydration and a resync snapshot replacement at instant `n` leaves the
dirty flag unset and extends the suppression window to at least `n + 1200`;
every sequence of slides mutations observed by the dirty-marking effect at
instants before `n + 1200` leaves the dirty flag unset. -/
theorem suppression_window
    (stB stL stR : EditorState) (p : UpdateBroadcast) (nB nL nR : Nat)
    (ssB ssL ssR : Snapshot) (v fv : Option Nat)
    (editsB editsL editsR : List (Nat × Snapshot))
    (hEcho : isOwnEcho p stB = false) (hS : p.slides = some ssB)
    (hqB : ∀ q ∈ editsB, q.1 < nB + 1200)
    (hqL : ∀ q ∈ editsL, q.1 < nL + 1200)
    (hqR : ∀ q ∈ editsR, q.1 < nR + 1200) :
    (nB + 1200 ≤ (updatesTopicHandler nB p stB).1.suppressAutosaveUntil ∧
     (updatesTopicHandler nB p stB).1.dirtySinceLastPersist = false ∧
     (applyLocalEdits editsB (updatesTopicHandler nB p stB).1).dirtySinceLastPersist
       = false) ∧
    (nL + 1200 ≤ (applyLoadHydration nL v ssL stL).suppressAutosaveUntil ∧
     (applyLoadHydration nL v ssL stL).dirtySinceLastPersist = false ∧
     (applyLocalEdits editsL (applyLoadHydration nL v ssL stL)).dirtySinceLastPersist
       = false) ∧
    (nR + 1200 ≤
       (resyncAfterConflict nR (FetchResult.ok fv (some ssR)) stR).suppressAutosaveUntil ∧
     (resyncAfterConflict nR (FetchResult.ok fv (some ssR)) stR).dirtySinceLastPersist
       = false ∧
     (applyLocalEdits editsR
        (resyncAfterConflict nR (FetchResult.ok fv (some ssR)) stR)).dirtySinceLastPersist
       = false) := by
  refine ⟨?_, ?_, ?_⟩
  · have hfacts : (updatesTopicHandler nB p stB).1.dirtySinceLastPersist = false ∧
        (updatesTopicHandler nB p stB).1.suppressAutosaveUntil
          = max stB.suppressAutosaveUntil (nB + 1200) := by
      cases hv : p.version <;> cases hss : ssB <;>
        simp_all [updatesTopicHandler, isOwnEcho, jsTruthy, dirtyMarkEffect_remote_id,
          historyCaptureEffect_suppressAutosaveUntil,
          historyCaptureEffect_dirtySinceLastPersist,
          historyCaptureEffect_applyingRemote]
    have hsup : nB + 1200 ≤ (updatesTopicHandler nB p stB).1.suppressAutosaveUntil := by
      rw [hfacts.2]; omega
    have he := applyLocalEdits_suppressed editsB (updatesTopicHandler nB p stB).1
      (fun q hq => lt_of_lt_of_le (hqB q hq) hsup)
    exact ⟨hsup, hfacts.1, by rw [he.1, hfacts.1]⟩
  · have hfacts : (applyLoadHydration nL v ssL stL).dirtySinceLastPersist = false ∧
        (applyLoadHydration nL v ssL stL).suppressAutosaveUntil
          = max stL.suppressAutosaveUntil (nL + 1200) := by
      cases hv : v <;> cases hss : ssL <;>
        simp_all [applyLoadHydration, dirtyMarkEffect_remote_id,
          historyCaptureEffect_suppressAutosaveUntil,
          historyCaptureEffect_dirtySinceLastPersist,
          historyCaptureEffect_applyingRemote]
    have hsup : nL + 1200 ≤ (applyLoadHydration nL v ssL stL).suppressAutosaveUntil := by
      rw [hfacts.2]; omega
    have he := applyLocalEdits_suppressed editsL (applyLoadHydration nL v ssL stL)
      (fun q hq => lt_of_lt_of_le (hqL q hq) hsup)
    exact ⟨hsup, hfacts.1, by rw [he.1, hfacts.1]⟩
  · have hfacts :
        (resyncAfterConflict nR (FetchResult.ok fv (some ssR)) stR).dirtySinceLastPersist
          = false ∧
        (resyncAfterConflict nR (FetchResult.ok fv (some ssR)) stR).suppressAutosaveUntil
          = max stR.suppressAutosaveUntil (nR + 1200) := by
      cases hv : fv <;>
        simp_all [resyncAfterConflict, dirtyMarkEffect_remote_id,
          historyCaptureEffect_suppressAutosaveUntil,
          historyCaptureEffect_dirtySinceLastPersist,
          historyCaptureEffect_applyingRemote]
    have hsup : nR + 1200 ≤
        (resyncAfterConflict nR (FetchResult.ok fv (some ssR)) stR).suppressAutosaveUntil := by
      rw [hfacts.2]; omega
    have he := applyLocalEdits_suppressed editsR
      (resyncAfterConflict nR (FetchResult.ok fv (some ssR)) stR)
      (fun q hq => lt_of_lt_of_le (hqR q hq) hsup)
    exact ⟨hsup, hfacts.1, by rw [he.1, hfacts.1]⟩


/-- Claim C4 (remote-clears-history): after a foreign broadcast, a load
hydration or a resync snapshot is applied to the slides (a mutation with the
applying-remote flag set), both history stacks are empty and the baseline
equals the newly applied state, so an undo keypress issued immediately
afterwards is a no-op. -/
theorem remote_clears_history
    (stB stL stR : EditorState) (p : UpdateBroadcast)
    (nB nL nR mB mL mR : Nat) (ssB ssL ssR : Snapshot) (v fv : Option Nat)
    (hEcho : isOwnEcho p stB = false) (hS : p.slides = some ssB)
    (hAB : stB.isApplyingHistory = false) (hIB : stB.historyInitialized = true)
    (hAL : stL.isApplyingHistory = false)
    (hAR : stR.isApplyingHistory = false) (hIR : stR.historyInitialized = true) :
    ((updatesTopicHandler nB p stB).1.undoStack = [] ∧
     (updatesTopicHandler nB p stB).1.redoStack = [] ∧
     (updatesTopicHandler nB p stB).1.historyBaseline = some ssB ∧
     applyUndoKey mB (updatesTopicHandler nB p stB).1 = (updatesTopicHandler nB p stB).1) ∧
    ((applyLoadHydration nL v ssL stL).undoStack = [] ∧
     (applyLoadHydration nL v ssL stL).redoStack = [] ∧
     (applyLoadHydration nL v ssL stL).historyBaseline = some ssL ∧
     applyUndoKey mL (applyLoadHydration nL v ssL stL) = applyLoadHydration nL v ssL stL) ∧
    ((resyncAfterConflict nR (FetchResult.ok fv (some ssR)) stR).undoStack = [] ∧
     (resyncAfterConflict nR (FetchResult.ok fv (some ssR)) stR).redoStack = [] ∧
     (resyncAfterConflict nR (FetchResult.ok fv (some ssR)) stR).historyBaseline
       = some ssR ∧
     applyUndoKey mR (resyncAfterConflict nR (FetchResult.ok fv (some ssR)) stR)
       = resyncAfterConflict nR (FetchResult.ok fv (some ssR)) stR) := by
  refine ⟨?_, ?_, ?_⟩
  · have hf : (updatesTopicHandler nB p stB).1.undoStack = [] ∧
        (updatesTopicHandler nB p stB).1.redoStack = [] ∧
        (updatesTopicHandler nB p stB).1.historyBaseline = some ssB ∧
        (updatesTopicHandler nB p stB).1.slides = ssB ∧
        (updatesTopicHandler nB p stB).1.historyPendingFrom = none ∧
        (updatesTopicHandler nB p stB).1.historyTimerArmed = false ∧
        (updatesTopicHandler nB p stB).1.historyInitialized = true := by
      cases hv : p.version <;> cases hss : ssB <;>
        simp_all [updatesTopicHandler, isOwnEcho, jsTruthy,
          historyCaptureEffect_remote_eq, dirtyMarkEffect_remote_id]
    refine ⟨hf.1, hf.2.1, hf.2.2.1, ?_⟩
    exact applyUndoKey_noop mB _ hf.2.2.2.2.2.2 hf.2.2.2.2.2.1 hf.2.2.2.2.1
      (by rw [hf.2.2.1, hf.2.2.2.1]) hf.1
  · have hf : (applyLoadHydration nL v ssL stL).undoStack = [] ∧
        (applyLoadHydration nL v ssL stL).redoStack = [] ∧
        (applyLoadHydration nL v ssL stL).historyBaseline = some ssL ∧
        (applyLoadHydration nL v ssL stL).slides = ssL ∧
        (applyLoadHydration nL v ssL stL).historyPendingFrom = none ∧
        (applyLoadHydration nL v ssL stL).historyTimerArmed = false ∧
        (applyLoadHydration nL v ssL stL).historyInitialized = true := by
      cases hv : v <;> cases hss : ssL <;>
        simp_all [applyLoadHydration, historyCaptureEffect_remote_init_eq,
          dirtyMarkEffect_remote_id]
    refine ⟨hf.1, hf.2.1, hf.2.2.1, ?_⟩
    exact applyUndoKey_noop mL _ hf.2.2.2.2.2.2 hf.2.2.2.2.2.1 hf.2.2.2.2.1
      (by rw [hf.2.2.1, hf.2.2.2.1]) hf.1
  · have hf : (resyncAfterConflict nR (FetchResult.ok fv (some ssR)) stR).undoStack = [] ∧
        (resyncAfterConflict nR (FetchResult.ok fv (some ssR)) stR).redoStack = [] ∧
        (resyncAfterConflict nR (FetchResult.ok fv (some ssR)) stR).historyBaseline
          = some ssR ∧
        (resyncAfterConflict nR (FetchResult.ok fv (some ssR)) stR).slides = ssR ∧
        (resyncAfterConflict nR (FetchResult.ok fv (some ssR)) stR).historyPendingFrom
          = none ∧
        (resyncAfterConflict nR (FetchResult.ok fv (some ssR)) stR).historyTimerArmed
          = false ∧
        (resyncAfterConflict nR (FetchResult.ok fv (some ssR)) stR).historyInitialized
          = true := by
      cases hv : fv <;>
        simp_all [resyncAfterConflict, historyCaptureEffect_remote_eq,
          dirtyMarkEffect_remote_id]
    refine ⟨hf.1, hf.2.1, hf.2.2.1, ?_⟩
    exact applyUndoKey_noop mR _ hf.2.2.2.2.2.2 hf.2.2.2.2.2.1 hf.2.2.2.2.1
      (by rw [hf.2.2.1, hf.2.2.2.1]) hf.1

/-- Edits inside the 1200 ms suppression window, used by witnesses. -/
def winEdits : List (Nat × Snapshot) := [(1500, [⟨6, 6⟩])]

/-- Witness for `suppression_window` on concrete inputs. -/
theorem suppression_window_witness :
    (isOwnEcho foreignP baseState = false ∧ foreignP.slides = some [⟨9, 9⟩] ∧
     (∀ q ∈ winEdits, q.1 < 1000 + 1200)) ∧
    ((1000 + 1200 ≤
        (updatesTopicHandler 1000 foreignP baseState).1.suppressAutosaveUntil ∧
      (updatesTopicHandler 1000 foreignP baseState).1.dirtySinceLastPersist = false ∧
      (applyLocalEdits winEdits
         (updatesTopicHandler 1000 foreignP baseState).1).dirtySinceLastPersist
        = false) ∧
     (1000 + 1200 ≤
        (applyLoadHydration 1000 (some 3) [⟨4, 4⟩] baseState).suppressAutosaveUntil ∧
      (applyLoadHydration 1000 (some 3) [⟨4, 4⟩] baseState).dirtySinceLastPersist
        = false ∧
      (applyLocalEdits winEdits
         (applyLoadHydration 1000 (some 3) [⟨4, 4⟩] baseState)).dirtySinceLastPersist
        = false) ∧
     (1000 + 1200 ≤
        (resyncAfterConflict 1000 (FetchResult.ok (some 4) (some [⟨5, 5⟩]))
           baseState).suppressAutosaveUntil ∧
      (resyncAfterConflict 1000 (FetchResult.ok (some 4) (some [⟨5, 5⟩]))
           baseState).dirtySinceLastPersist = false ∧
      (applyLocalEdits winEdits
         (resyncAfterConflict 1000 (FetchResult.ok (some 4) (some [⟨5, 5⟩]))
            baseState)).dirtySinceLastPersist = false)) :=
  ⟨⟨by decide, by decide, by decide⟩,
   suppression_window baseState baseState baseState foreignP 1000 1000 1000
     [⟨9, 9⟩] [⟨4, 4⟩] [⟨5, 5⟩] (some 3) (some 4) winEdits winEdits winEdits
     (by decide) (by decide) (by decide) (by decide) (by decide)⟩

/-- Witness for `remote_clears_history` on concrete inputs. -/
theorem remote_clears_history_witness :
    (isOwnEcho foreignP baseState = false ∧ foreignP.slides = some [⟨9, 9⟩] ∧
     baseState.isApplyingHistory = false ∧ baseState.historyInitialized = true) ∧
    (((updatesTopicHandler 1000 foreignP baseState).1.undoStack = [] ∧
      (updatesTopicHandler 1000 foreignP baseState).1.redoStack = [] ∧
      (updatesTopicHandler 1000 foreignP baseState).1.historyBaseline = some [⟨9, 9⟩] ∧
      applyUndoKey 0 (updatesTopicHandler 1000 foreignP baseState).1
        = (updatesTopicHandler 1000 foreignP baseState).1) ∧
     ((applyLoadHydration 1000 (some 3) [⟨4, 4⟩] baseState).undoStack = [] ∧
      (applyLoadHydration 1000 (some 3) [⟨4, 4⟩] baseState).redoStack = [] ∧
      (applyLoadHydration 1000 (some 3) [⟨4, 4⟩] baseState).historyBaseline
        = some [⟨4, 4⟩] ∧
      applyUndoKey 0 (applyLoadHydration 1000 (some 3) [⟨4, 4⟩] baseState)
        = applyLoadHydration 1000 (some 3) [⟨4, 4⟩] baseState) ∧
     ((resyncAfterConflict 1000 (FetchResult.ok (some 4) (some [⟨5, 5⟩]))
         baseState).undoStack = [] ∧
      (resyncAfterConflict 1000 (FetchResult.ok (some 4) (some [⟨5, 5⟩]))
         baseState).redoStack = [] ∧
      (resyncAfterConflict 1000 (FetchResult.ok (some 4) (some [⟨5, 5⟩]))
         baseState).historyBaseline = some [⟨5, 5⟩] ∧
      applyUndoKey 0
          (resyncAfterConflict 1000 (FetchResult.ok (some 4) (some [⟨5, 5⟩])) baseState)
        = resyncAfterConflict 1000 (FetchResult.ok (some 4) (some [⟨5, 5⟩]))
            baseState)) :=
  ⟨⟨by decide, by decide, by decide, by decide⟩,
   remote_clears_history baseState baseState baseState foreignP 1000 1000 1000 0 0 0
     [⟨9, 9⟩] [⟨4, 4⟩] [⟨5, 5⟩] (some 3) (some 4)
     (by decide) (by decide) (by decide) (by decide) (by decide) (by decide)
     (by decide)⟩

/-- Claim C10, amended (foreign error replies ignored): for every error reply
that passes the code check (`code` present and non-empty) and whose `clientId`
field is present, NON-EMPTY and different from this connection's clientId, the
errors-queue handler returns without changing any state and issues no publish,
retry or resync. -/
theorem foreign_error_reply_ignored (st : EditorState) (now : Nat) (raw : String)
    (e : WsErrorMsg) (fetch : FetchResult) (c cod : String)
    (hCode : e.code = some cod) (hCod : cod ≠ "")
    (hCid : e.clientId = some c) (hNe : c ≠ "") (hDiff : c ≠ st.clientId) :
    processWsError now (RawWsError.decoded raw e) fetch st = (st, []) := by
  unfold processWsError
  simp [optTruthy, jsTruthy, hCode, hCid, hCod, hNe, hDiff]

/-- Claim C10 counterexample: an error reply whose clientId field is present
(but the empty string) and differs from this connection's clientId is NOT
ignored — the JS truthiness guard `err.clientId && err.clientId !== ...` skips
the filter for a falsy clientId, and the handler proceeds to clear the
in-flight flag, changing the state. -/
theorem foreign_error_truthiness_counterexample :
    (WsErrorMsg.mk (some ("FORBIDDEN")) none (some (""))).clientId = some ("") ∧
    ("" : String) ≠ { baseState with pendingWsSave := true }.clientId ∧
    (processWsError 0
        (RawWsError.decoded ("x") (WsErrorMsg.mk (some ("FORBIDDEN")) none (some (""))))
        FetchResult.notOk { baseState with pendingWsSave := true }).1
      ≠ { baseState with pendingWsSave := true } := by
  refine ⟨rfl, by decide, by decide⟩

/-- Witness for `foreign_error_reply_ignored` on concrete inputs. -/
theorem foreign_error_reply_ignored_witness :
    ((WsErrorMsg.mk (some ("FORBIDDEN")) none (some ("other"))).code
        = some ("FORBIDDEN") ∧
     ("FORBIDDEN" : String) ≠ "" ∧
     (WsErrorMsg.mk (some ("FORBIDDEN")) none (some ("other"))).clientId
        = some ("other") ∧
     ("other" : String) ≠ "" ∧ ("other" : String) ≠ baseState.clientId) ∧
    processWsError 3
      (RawWsError.decoded ("x") (WsErrorMsg.mk (some ("FORBIDDEN")) none (some ("other"))))
      FetchResult.notOk baseState = (baseState, []) :=
  ⟨⟨rfl, by decide, rfl, by decide, by decide⟩,
   foreign_error_reply_ignored baseState 3 ("x")
     (WsErrorMsg.mk (some ("FORBIDDEN")) none (some ("other")))
     FetchResult.notOk ("other") ("FORBIDDEN") rfl (by decide) rfl (by decide)
     (by decide)⟩

/-- Projections of the resync fallback when the re-fetch succeeds with a
numeric version and a well-formed snapshot. -/
lemma resyncAfterConflict_ok_proj (now : Nat) (v : Nat) (ss : Snapshot)
    (st : EditorState) :
    (resyncAfterConflict now (FetchResult.ok (some v) (some ss)) st).slides = ss ∧
    (resyncAfterConflict now (FetchResult.ok (some v) (some ss)) st).instrumentoVersion
      = some v ∧
    (resyncAfterConflict now (FetchResult.ok (some v) (some ss)) st).versionRef
      = some v ∧
    (resyncAfterConflict now (FetchResult.ok (some v) (some ss)) st).dirtySinceLastPersist
      = false ∧
    (resyncAfterConflict now (FetchResult.ok (some v) (some ss)) st).lastSavedSlidesJson
      = some ss := by
  simp [resyncAfterConflict, dirtyMarkEffect_remote_id,
    historyCaptureEffect_slides, historyCaptureEffect_instrumentoVersion,
    historyCaptureEffect_versionRef, historyCaptureEffect_dirtySinceLastPersist,
    historyCaptureEffect_lastSavedSlidesJson, historyCaptureEffect_applyingRemote]

/-- Claim C8 (resync on suppressed retry): when a VERSION_CONFLICT error
reply does not lead to an automatic retry (the same actual version was
recorded within the last 1.5 s, or the dirty flag is clear), the handler emits
no publish and instead re-fetches the authoritative snapshot and version,
replaces the slides wholesale, adopts the fetched version, records the
snapshot as last saved and clears the dirty flag. -/
theorem resync_on_suppressed_retry (st : EditorState) (e : WsErrorMsg)
    (raw : String) (now : Nat) (v : Nat) (ss : Snapshot)
    (hCode : e.code = some ("VERSION_CONFLICT"))
    (hCid : optTruthy e.clientId = false ∨ e.clientId = some st.clientId)
    (hSupp : (now - st.conflictRetryLastAt < 1500 ∧
              (∃ a, (parseVersionConflictMessage (e.message.getD "")).2 = some a ∧
                    st.conflictRetryLastActual = some a)) ∨
             st.dirtySinceLastPersist = false) :
    (processWsError now (RawWsError.decoded raw e)
       (FetchResult.ok (some v) (some ss)) st).2 = [] ∧
    (processWsError now (RawWsError.decoded raw e)
       (FetchResult.ok (some v) (some ss)) st).1.slides = ss ∧
    (processWsError now (RawWsError.decoded raw e)
       (FetchResult.ok (some v) (some ss)) st).1.instrumentoVersion = some v ∧
    (processWsError now (RawWsError.decoded raw e)
       (FetchResult.ok (some v) (some ss)) st).1.versionRef = some v ∧
    (processWsError now (RawWsError.decoded raw e)
       (FetchResult.ok (some v) (some ss)) st).1.dirtySinceLastPersist = false ∧
    (processWsError now (RawWsError.decoded raw e)
       (FetchResult.ok (some v) (some ss)) st).1.lastSavedSlidesJson = some ss := by
  have hfilter : (optTruthy e.clientId && e.clientId.getD "" != st.clientId) = false := by
    rcases hCid with h | h
    · simp [h]
    · simp [h, optTruthy]
  unfold processWsError
  dsimp only
  rw [hCode, hfilter]
  rw [if_neg (by decide), if_neg (by simp)]
  rw [if_pos (by rfl)]
  cases hA2 : (parseVersionConflictMessage (e.message.getD "")).2 with
  | none =>
    dsimp only
    rw [if_pos (by simp)]
    have hdirty : st.dirtySinceLastPersist = false := by
      rcases hSupp with ⟨h1500, b, hB, hLast⟩ | hdirty
      · rw [hA2] at hB
        exact absurd hB (by simp)
      · exact hdirty
    rw [if_neg (by simp [hdirty])]
    exact ⟨rfl, (resyncAfterConflict_ok_proj _ _ _ _).1,
      (resyncAfterConflict_ok_proj _ _ _ _).2.1,
      (resyncAfterConflict_ok_proj _ _ _ _).2.2.1,
      (resyncAfterConflict_ok_proj _ _ _ _).2.2.2.1,
      (resyncAfterConflict_ok_proj _ _ _ _).2.2.2.2⟩
  | some a =>
    dsimp only
    rcases hSupp with ⟨h1500, b, hB, hLast⟩ | hdirty
    · rw [hA2] at hB
      obtain rfl : a = b := by injection hB
      rw [if_neg (by simp [h1500, hLast])]
      exact ⟨rfl, (resyncAfterConflict_ok_proj _ _ _ _).1,
        (resyncAfterConflict_ok_proj _ _ _ _).2.1,
        (resyncAfterConflict_ok_proj _ _ _ _).2.2.1,
        (resyncAfterConflict_ok_proj _ _ _ _).2.2.2.1,
        (resyncAfterConflict_ok_proj _ _ _ _).2.2.2.2⟩
    · split
      · rw [if_neg (by simp [hdirty])]
        exact ⟨rfl, (resyncAfterConflict_ok_proj _ _ _ _).1,
          (resyncAfterConflict_ok_proj _ _ _ _).2.1,
          (resyncAfterConflict_ok_proj _ _ _ _).2.2.1,
          (resyncAfterConflict_ok_proj _ _ _ _).2.2.2.1,
          (resyncAfterConflict_ok_proj _ _ _ _).2.2.2.2⟩
      · exact ⟨rfl, (resyncAfterConflict_ok_proj _ _ _ _).1,
          (resyncAfterConflict_ok_proj _ _ _ _).2.1,
          (resyncAfterConflict_ok_proj _ _ _ _).2.2.1,
          (resyncAfterConflict_ok_proj _ _ _ _).2.2.2.1,
          (resyncAfterConflict_ok_proj _ _ _ _).2.2.2.2⟩

/-- A conflict reply with no clientId, used by the C8 witness. -/
def conflictErr : WsErrorMsg :=
  { code := some ("VERSION_CONFLICT")
    message := some ("Versão desatualizada. expected=5 actual=9")
    clientId := none }

/-- Witness for `resync_on_suppressed_retry` on concrete inputs. -/
theorem resync_on_suppressed_retry_witness :
    (conflictErr.code = some ("VERSION_CONFLICT") ∧
     (optTruthy conflictErr.clientId = false ∨
      conflictErr.clientId = some baseState.clientId) ∧
     ((0 - baseState.conflictRetryLastAt < 1500 ∧
       (∃ a, (parseVersionConflictMessage (conflictErr.message.getD "")).2 = some a ∧
             baseState.conflictRetryLastActual = some a)) ∨
      baseState.dirtySinceLastPersist = false)) ∧
    ((processWsError 0 (RawWsError.decoded ("b") conflictErr)
        (FetchResult.ok (some 9) (some [⟨7, 7⟩])) baseState).2 = [] ∧
     (processWsError 0 (RawWsError.decoded ("b") conflictErr)
        (FetchResult.ok (some 9) (some [⟨7, 7⟩])) baseState).1.slides = [⟨7, 7⟩] ∧
     (processWsError 0 (RawWsError.decoded ("b") conflictErr)
        (FetchResult.ok (some 9) (some [⟨7, 7⟩])) baseState).1.instrumentoVersion
       = some 9 ∧
     (processWsError 0 (RawWsError.decoded ("b") conflictErr)
        (FetchResult.ok (some 9) (some [⟨7, 7⟩])) baseState).1.versionRef = some 9 ∧
     (processWsError 0 (RawWsError.decoded ("b") conflictErr)
        (FetchResult.ok (some 9) (some [⟨7, 7⟩])) baseState).1.dirtySinceLastPersist
       = false ∧
     (processWsError 0 (RawWsError.decoded ("b") conflictErr)
        (FetchResult.ok (some 9) (some [⟨7, 7⟩])) baseState).1.lastSavedSlidesJson
       = some [⟨7, 7⟩]) :=
  ⟨⟨rfl, Or.inl (by decide), Or.inr (by decide)⟩,
   resync_on_suppressed_retry baseState conflictErr ("b") 0 9 [⟨7, 7⟩]
     rfl (Or.inl (by decide)) (Or.inr (by decide))⟩

/-- Full characterization of the errors-queue handler on a VERSION_CONFLICT
reply that passes the clientId filter and triggers the automatic retry. -/
lemma processWsError_conflict_retry (st : EditorState) (e : WsErrorMsg)
    (raw : String) (n1 V tid : Nat) (f1 : FetchResult)
    (hCode : e.code = some ("VERSION_CONFLICT"))
    (hCid : optTruthy e.clientId = false ∨ e.clientId = some st.clientId)
    (hPV : (parseVersionConflictMessage (e.message.getD "")).2 = some V)
    (hDirty : st.dirtySinceLastPersist = true)
    (hRate : ¬ (n1 - st.conflictRetryLastAt < 1500 ∧
                st.conflictRetryLastActual = some V))
    (hT : st.turmaId = some tid) (hConn : st.clientConnected = true) :
    processWsError n1 (RawWsError.decoded raw e) f1 st =
      ({ st with pendingWsSave := true, pendingWsSavedJson := some st.slides,
                 wsDirtyWhileSaving := false,
                 saveStatus := SaveStatus.saving, lastSaveError := none,
                 instrumentoVersion := some V, versionRef := some V,
                 conflictRetryLastAt := n1, conflictRetryLastActual := some V },
       [{ turmaId := tid, slides := st.slides, expectedVersion := some V,
          clientId := st.clientId, eventType := "INTERNAL_RETRY",
          summary := "Atualizou o instrumento" }]) := by
  have hfilter : (optTruthy e.clientId && e.clientId.getD "" != st.clientId) = false := by
    rcases hCid with h | h
    · simp [h]
    · simp [h, optTruthy]
  have hcond : (!(decide (n1 - st.conflictRetryLastAt < 1500))
      || !(st.conflictRetryLastActual == some V)) = true := by
    by_cases h1 : n1 - st.conflictRetryLastAt < 1500
    · have h2 : st.conflictRetryLastActual ≠ some V := fun hh => hRate ⟨h1, hh⟩
      simp [h2]
    · simp [h1]
  unfold processWsError
  dsimp only
  rw [hCode, hfilter]
  rw [if_neg (by decide), if_neg (by simp)]
  rw [if_pos (by rfl)]
  rw [hPV]
  dsimp only
  rw [if_pos hcond, if_pos hDirty]
  unfold publishWsSnapshot
  rw [hT]
  dsimp only
  rw [hConn]
  simp only [Bool.not_true, Bool.false_eq_true, if_false, Bool.true_eq_false]
  norm_num
  decide

/-- A conflict reply whose actual version was already recorded within the
last 1.5 s emits no publish (the handler falls back to resync). -/
lemma processWsError_suppressed_snd (st : EditorState) (e : WsErrorMsg)
    (raw : String) (n : Nat) (f : FetchResult)
    (hCode : e.code = some ("VERSION_CONFLICT"))
    (hCid : optTruthy e.clientId = false ∨ e.clientId = some st.clientId)
    (hSame : ∃ a, (parseVersionConflictMessage (e.message.getD "")).2 = some a ∧
                  st.conflictRetryLastActual = some a)
    (h1500 : n - st.conflictRetryLastAt < 1500) :
    (processWsError n (RawWsError.decoded raw e) f st).2 = [] := by
  obtain ⟨a, hA, hLast⟩ := hSame
  have hfilter : (optTruthy e.clientId && e.clientId.getD "" != st.clientId) = false := by
    rcases hCid with h | h
    · simp [h]
    · simp [h, optTruthy]
  unfold processWsError
  dsimp only
  rw [hCode, hfilter]
  rw [if_neg (by decide), if_neg (by simp)]
  rw [if_pos (by rfl)]
  rw [hA]
  dsimp only
  rw [hLast]
  rw [if_neg (by simp [h1500])]

/-- Claim C3 (conflict convergence): a VERSION_CONFLICT reply reporting an
actual version `V` (text-parsed from the `expected=X actual=Y` message) makes
the handler adopt `V`; since the dirty flag is set and no conflict with the
same `V` was recorded within the last 1.5 s, exactly one retry publish is
issued, carrying `expectedVersion = V` and the current local snapshot; a
second conflict reporting the same `V` within 1.5 s fires no retry. -/
theorem conflict_convergence (st : EditorState) (e e2 : WsErrorMsg)
    (raw raw2 : String) (n1 n2 V tid : Nat) (f1 f2 : FetchResult)
    (hCode : e.code = some ("VERSION_CONFLICT"))
    (hCid : optTruthy e.clientId = false ∨ e.clientId = some st.clientId)
    (hPV : (parseVersionConflictMessage (e.message.getD "")).2 = some V)
    (hDirty : st.dirtySinceLastPersist = true)
    (hRate : ¬ (n1 - st.conflictRetryLastAt < 1500 ∧
                st.conflictRetryLastActual = some V))
    (hT : st.turmaId = some tid) (hConn : st.clientConnected = true)
    (hCode2 : e2.code = some ("VERSION_CONFLICT"))
    (hCid2 : optTruthy e2.clientId = false ∨ e2.clientId = some st.clientId)
    (hPV2 : (parseVersionConflictMessage (e2.message.getD "")).2 = some V)
    (hN2 : n2 - n1 < 1500) :
    (processWsError n1 (RawWsError.decoded raw e) f1 st).1.instrumentoVersion
      = some V ∧
    (processWsError n1 (RawWsError.decoded raw e) f1 st).1.versionRef = some V ∧
    (processWsError n1 (RawWsError.decoded raw e) f1 st).2.length = 1 ∧
    (∀ m ∈ (processWsError n1 (RawWsError.decoded raw e) f1 st).2,
       m.expectedVersion = some V ∧ m.slides = st.slides) ∧
    (processWsError n1 (RawWsError.decoded raw e) f1 st).1.conflictRetryLastAt = n1 ∧
    (processWsError n1 (RawWsError.decoded raw e) f1 st).1.conflictRetryLastActual
      = some V ∧
    (processWsError n2 (RawWsError.decoded raw2 e2) f2
       (processWsError n1 (RawWsError.decoded raw e) f1 st).1).2 = [] := by
  have heq := processWsError_conflict_retry st e raw n1 V tid f1
    hCode hCid hPV hDirty hRate hT hConn
  rw [heq]
  refine ⟨rfl, rfl, rfl, ?_, rfl, rfl, ?_⟩
  · intro m hm
    simp only [List.mem_singleton] at hm
    subst hm
    exact ⟨rfl, rfl⟩
  · refine processWsError_suppressed_snd _ e2 raw2 n2 f2 hCode2 ?_ ⟨V, hPV2, rfl⟩ hN2
    rcases hCid2 with h | h
    · exact Or.inl h
    · exact Or.inr h

/-- A dirty editor state, used by the C3 witness. -/
def retrySt : EditorState := { baseState with dirtySinceLastPersist := true }

/-- A conflict reply whose message reports actual version 21. -/
def conflictErr21 : WsErrorMsg :=
  { code := some ("VERSION_CONFLICT")
    message := some ("Versão desatualizada. expected=20 actual=21")
    clientId := none }

/-- Witness for `conflict_convergence` on concrete inputs. -/
theorem conflict_convergence_witness :
    (conflictErr21.code = some ("VERSION_CONFLICT") ∧
     (optTruthy conflictErr21.clientId = false ∨
      conflictErr21.clientId = some retrySt.clientId) ∧
     (parseVersionConflictMessage (conflictErr21.message.getD "")).2 = some 21 ∧
     retrySt.dirtySinceLastPersist = true ∧
     ¬ (2000 - retrySt.conflictRetryLastAt < 1500 ∧
        retrySt.conflictRetryLastActual = some 21) ∧
     retrySt.turmaId = some 7 ∧ retrySt.clientConnected = true ∧
     3000 - 2000 < 1500) ∧
    ((processWsError 2000 (RawWsError.decoded ("b") conflictErr21)
        FetchResult.notOk retrySt).1.instrumentoVersion = some 21 ∧
     (processWsError 2000 (RawWsError.decoded ("b") conflictErr21)
        FetchResult.notOk retrySt).1.versionRef = some 21 ∧
     (processWsError 2000 (RawWsError.decoded ("b") conflictErr21)
        FetchResult.notOk retrySt).2.length = 1 ∧
     (∀ m ∈ (processWsError 2000 (RawWsError.decoded ("b") conflictErr21)
        FetchResult.notOk retrySt).2,
        m.expectedVersion = some 21 ∧ m.slides = retrySt.slides) ∧
     (processWsError 2000 (RawWsError.decoded ("b") conflictErr21)
        FetchResult.notOk retrySt).1.conflictRetryLastAt = 2000 ∧
     (processWsError 2000 (RawWsError.decoded ("b") conflictErr21)
        FetchResult.notOk retrySt).1.conflictRetryLastActual = some 21 ∧
     (processWsError 3000 (RawWsError.decoded ("c") conflictErr21) FetchResult.notOk
        (processWsError 2000 (RawWsError.decoded ("b") conflictErr21)
           FetchResult.notOk retrySt).1).2 = []) :=
  ⟨⟨rfl, Or.inl (by decide), by decide, by decide, by decide, by decide, by decide,
    by decide⟩,
   conflict_convergence retrySt conflictErr21 conflictErr21 ("b") ("c") 2000 3000 21 7
     FetchResult.notOk FetchResult.notOk rfl (Or.inl (by decide)) (by decide)
     (by decide) (by decide) (by decide) (by decide) rfl (Or.inl (by decide))
     (by decide) (by decide)⟩

/-- While a WS publish is in flight and outside the suppression window, a
local edit marks the changed-during-flight flag. -/
lemma applyLocalEdit_marks (now : Nat) (s : Snapshot) (st : EditorState)
    (hT : st.turmaId.isSome = true) (hL : st.loading = false)
    (hA : st.loadedFromApi = true) (hR : st.applyingRemote = false)
    (hS : st.suppressAutosaveUntil ≤ now) (hW : st.wsConnected = true)
    (hP : st.pendingWsSave = true) :
    (applyLocalEdit now s st).wsDirtyWhileSaving = true := by
  unfold applyLocalEdit
  obtain ⟨u, r, b, p, t, i, h1⟩ := historyCaptureEffect_shape { st with slides := s }
  rw [h1]
  unfold dirtyMarkEffect
  rw [if_neg (by simp [Option.isNone_iff_eq_none]; intro hh; rw [hh] at hT; simp at hT)]
  rw [if_neg (by simp [hL]), if_neg (by simp [hA]), if_neg (by simp [hR])]
  rw [if_neg (by simpa using Nat.not_lt.mpr hS)]
  rw [if_pos (by simp [hW, hP])]

/-- A non-empty run of local edits during an in-flight publish ends on the
last edit's slides, marks the changed-during-flight flag, and leaves all the
connection/guard fields untouched. -/
lemma applyLocalEdits_append_marks (edits : List (Nat × Snapshot)) :
    ∀ (st : EditorState) (q : Nat × Snapshot),
      st.loading = false → st.loadedFromApi = true → st.applyingRemote = false →
      st.wsConnected = true → st.pendingWsSave = true → st.turmaId.isSome = true →
      (∀ r ∈ edits ++ [q], st.suppressAutosaveUntil ≤ r.1) →
      (applyLocalEdits (edits ++ [q]) st).slides = q.2 ∧
      (applyLocalEdits (edits ++ [q]) st).wsDirtyWhileSaving = true ∧
      (applyLocalEdits (edits ++ [q]) st).turmaId = st.turmaId ∧
      (applyLocalEdits (edits ++ [q]) st).clientId = st.clientId ∧
      (applyLocalEdits (edits ++ [q]) st).clientConnected = st.clientConnected ∧
      (applyLocalEdits (edits ++ [q]) st).wsConnected = true ∧
      (applyLocalEdits (edits ++ [q]) st).pendingWsSave = true ∧
      (applyLocalEdits (edits ++ [q]) st).loading = false ∧
      (applyLocalEdits (edits ++ [q]) st).loadedFromApi = true ∧
      (applyLocalEdits (edits ++ [q]) st).applyingRemote = false ∧
      (applyLocalEdits (edits ++ [q]) st).versionRef = st.versionRef ∧
      (applyLocalEdits (edits ++ [q]) st).pendingWsSavedJson = st.pendingWsSavedJson := by
  induction edits with
  | nil =>
    intro st q hL hA hR hW hP hT hSup
    have hq := hSup q (by simp)
    unfold applyLocalEdits
    simp only [List.nil_append, List.foldl_cons, List.foldl_nil]
    exact ⟨applyLocalEdit_slides q.1 q.2 st,
      applyLocalEdit_marks q.1 q.2 st hT hL hA hR hq hW hP,
      applyLocalEdit_turmaId q.1 q.2 st,
      applyLocalEdit_clientId q.1 q.2 st,
      applyLocalEdit_clientConnected q.1 q.2 st,
      by rw [applyLocalEdit_wsConnected]; exact hW,
      by rw [applyLocalEdit_pendingWsSave]; exact hP,
      by rw [applyLocalEdit_loading]; exact hL,
      by rw [applyLocalEdit_loadedFromApi]; exact hA,
      by rw [applyLocalEdit_applyingRemote]; exact hR,
      applyLocalEdit_versionRef q.1 q.2 st,
      applyLocalEdit_pendingWsSavedJson q.1 q.2 st⟩
  | cons a rest ih =>
    intro st q hL hA hR hW hP hT hSup
    have hstep := ih (applyLocalEdit a.1 a.2 st) q
      (by rw [applyLocalEdit_loading]; exact hL)
      (by rw [applyLocalEdit_loadedFromApi]; exact hA)
      (by rw [applyLocalEdit_applyingRemote]; exact hR)
      (by rw [applyLocalEdit_wsConnected]; exact hW)
      (by rw [applyLocalEdit_pendingWsSave]; exact hP)
      (by rw [applyLocalEdit_turmaId]; exact hT)
      (by
        intro r hr
        rw [applyLocalEdit_suppressAutosaveUntil]
        exact hSup r (by simpa using Or.inr (by simpa using hr)))
    have hfold : applyLocalEdits ((a :: rest) ++ [q]) st
        = applyLocalEdits (rest ++ [q]) (applyLocalEdit a.1 a.2 st) := by
      unfold applyLocalEdits
      simp [List.foldl_cons]
    rw [hfold]
    refine ⟨hstep.1, hstep.2.1, ?_, ?_, ?_, hstep.2.2.2.2.2.1, hstep.2.2.2.2.2.2.1,
      hstep.2.2.2.2.2.2.2.1, hstep.2.2.2.2.2.2.2.2.1, hstep.2.2.2.2.2.2.2.2.2.1,
      ?_, ?_⟩
    · rw [hstep.2.2.1, applyLocalEdit_turmaId]
    · rw [hstep.2.2.2.1, applyLocalEdit_clientId]
    · rw [hstep.2.2.2.2.1, applyLocalEdit_clientConnected]
    · rw [hstep.2.2.2.2.2.2.2.2.2.2.1, applyLocalEdit_versionRef]
    · rw [hstep.2.2.2.2.2.2.2.2.2.2.2, applyLocalEdit_pendingWsSavedJson]

/-- Claim C1, amended (at most one publish in flight): while a publish is in
flight (and the channel is up), `publishWsSnapshot` sends nothing and only
marks the pending-edit flag; and after any run of local mutations during the
flight, the own-clientId acknowledgment broadcast issues exactly one
additional publish, whose payload is the document state current at resolution
time (the last mutation's slides), not an intermediate snapshot.  On an error
reply the pending-edit flag is merely cleared; a republish happens only
through the VERSION_CONFLICT retry path (see
`in_flight_error_no_flush_counterexample`). -/
theorem at_most_one_in_flight (st : EditorState) (tid : Nat) (v : Option Nat)
    (ps : Option Snapshot) (edits : List (Nat × Snapshot)) (q : Nat × Snapshot)
    (n : Nat)
    (hT : st.turmaId = some tid) (hConn : st.clientConnected = true)
    (hWs : st.wsConnected = true) (hPend : st.pendingWsSave = true)
    (hLd : st.loading = false) (hApi : st.loadedFromApi = true)
    (hRem : st.applyingRemote = false) (hNe : st.clientId ≠ "")
    (hTm : ∀ r ∈ edits ++ [q], st.suppressAutosaveUntil ≤ r.1) :
    (∀ s ety, publishWsSnapshot s ety st
        = (true, { st with wsDirtyWhileSaving := true }, [])) ∧
    ((processUpdateBroadcast n
        { version := v, clientId := some st.clientId, slides := ps }
        (applyLocalEdits (edits ++ [q]) st)).2.length = 1 ∧
     ∀ m ∈ (processUpdateBroadcast n
        { version := v, clientId := some st.clientId, slides := ps }
        (applyLocalEdits (edits ++ [q]) st)).2,
       m.slides = q.2 ∧ m.turmaId = tid ∧ m.clientId = st.clientId) := by
  constructor
  · intro s ety
    unfold publishWsSnapshot
    rw [hT]
    dsimp only
    rw [hConn]
    simp [hPend]
  · obtain ⟨hs, hw, ht', hc, hcc, hwc, hp, hl, ha, har, hv', hpj⟩ :=
      applyLocalEdits_append_marks edits st q hLd hApi hRem hWs hPend
        (by rw [hT]; rfl) hTm
    cases v <;> cases hjc : st.pendingWsSavedJson <;>
      simp_all [processUpdateBroadcast, updatesTopicHandler, publishWsSnapshot,
        isOwnEcho, jsTruthy, hT]

/-- An editor state with a publish in flight and a pending edit marked. -/
def flightSt : EditorState :=
  { baseState with pendingWsSave := true, pendingWsSavedJson := some [⟨1, 10⟩],
                   wsDirtyWhileSaving := true, dirtySinceLastPersist := true }

/-- Claim C1 counterexample: the in-flight publish resolves via an error
reply (code FORBIDDEN) while a pending edit is marked, yet no additional
publish is issued — the handler just clears the pending-edit flag, refuting
"once the in-flight publish resolves (its own-clientId acknowledgment
broadcast or an error reply arrives), exactly one additional publish is
issued automatically". -/
theorem in_flight_error_no_flush_counterexample :
    flightSt.pendingWsSave = true ∧ flightSt.wsDirtyWhileSaving = true ∧
    (processWsError 0
       (RawWsError.decoded ("b") (WsErrorMsg.mk (some ("FORBIDDEN")) none none))
       FetchResult.notOk flightSt).2 = [] ∧
    (processWsError 0
       (RawWsError.decoded ("b") (WsErrorMsg.mk (some ("FORBIDDEN")) none none))
       FetchResult.notOk flightSt).1.wsDirtyWhileSaving = false := by
  decide

/-- Edits applied while the publish is in flight, for the C1 witness. -/
def flightEdits : List (Nat × Snapshot) := [(10, [⟨2, 2⟩])]

/-- Witness for `at_most_one_in_flight` on concrete inputs. -/
theorem at_most_one_in_flight_witness :
    (flightSt.turmaId = some 7 ∧ flightSt.clientConnected = true ∧
     flightSt.wsConnected = true ∧ flightSt.pendingWsSave = true ∧
     flightSt.loading = false ∧ flightSt.loadedFromApi = true ∧
     flightSt.applyingRemote = false ∧ flightSt.clientId ≠ "" ∧
     (∀ r ∈ flightEdits ++ [(20, [⟨3, 3⟩])], flightSt.suppressAutosaveUntil ≤ r.1)) ∧
    ((∀ s ety, publishWsSnapshot s ety flightSt
        = (true, { flightSt with wsDirtyWhileSaving := true }, [])) ∧
     ((processUpdateBroadcast 50
        { version := some 6, clientId := some flightSt.clientId, slides := some [⟨8, 8⟩] }
        (applyLocalEdits (flightEdits ++ [(20, [⟨3, 3⟩])]) flightSt)).2.length = 1 ∧
      ∀ m ∈ (processUpdateBroadcast 50
        { version := some 6, clientId := some flightSt.clientId, slides := some [⟨8, 8⟩] }
        (applyLocalEdits (flightEdits ++ [(20, [⟨3, 3⟩])]) flightSt)).2,
        m.slides = [⟨3, 3⟩] ∧ m.turmaId = 7 ∧ m.clientId = flightSt.clientId)) :=
  ⟨⟨by decide, by decide, by decide, by decide, by decide, by decide, by decide,
    by decide, by decide⟩,
   at_most_one_in_flight flightSt 7 (some 6) (some [⟨8, 8⟩]) flightEdits
     (20, [⟨3, 3⟩]) 50 (by decide) (by decide) (by decide) (by decide) (by decide)
     (by decide) (by decide) (by decide) (by decide)⟩

/-- One coalesced edit burst: a run of local mutations followed by the expiry
of the 350 ms history debounce timer. -/
def applyBurst (now : Nat) (es : List Snapshot) (st : EditorState) : EditorState :=
  fireHistoryTimer (es.foldl (fun s e => applyLocalEdit now e s) st)

/-- A sequence of coalesced edit bursts. -/
def runBursts (now : Nat) (bs : List (List Snapshot)) (st : EditorState) :
    EditorState :=
  bs.foldl (fun s b => applyBurst now b s) st

/-- Bursts that each make a net change: every burst is non-empty and its last
state differs from the state the burst started from. -/
def validBursts : Snapshot → List (List Snapshot) → Bool
  | _, [] => true
  | cur, b :: bs =>
    match b.getLast? with
    | some l => decide (l ≠ cur) && validBursts l bs
    | none => false

/-- The document state after a burst sequence. -/
def finalOf : Snapshot → List (List Snapshot) → Snapshot
  | cur, [] => cur
  | cur, b :: bs => finalOf (b.getLast?.getD cur) bs

/-- The undo entries (top first) pushed by a valid burst sequence. -/
def stackOf : Snapshot → List (List Snapshot) → List Snapshot
  | _, [] => []
  | cur, b :: bs => stackOf (b.getLast?.getD cur) bs ++ [cur]

/-- The idle history configuration: initialized, no pending burst, timer
disarmed, baseline equal to the displayed state, and no history application or
remote application in progress. -/
def HistoryIdle (st : EditorState) : Prop :=
  st.historyInitialized = true ∧ st.historyPendingFrom = none ∧
  st.historyTimerArmed = false ∧ st.historyBaseline = some st.slides ∧
  st.isApplyingHistory = false ∧ st.applyingRemote = false

/-- While an undo or redo is being applied, the history-capture effect is a
no-op. -/
lemma historyCaptureEffect_applying_id (st : EditorState)
    (hI : st.historyInitialized = true) (hA : st.isApplyingHistory = true) :
    historyCaptureEffect st = st := by
  unfold historyCaptureEffect initHistoryIfNeeded
  simp [hI, hA]

/-- One local edit inside a burst: the baseline and the stacks stay put, and
the pending-from/timer pair either stays untouched (the edit landed back on
the baseline) or holds the burst's initial state with the timer armed. -/
lemma applyLocalEdit_burst_step (now : Nat) (e : Snapshot) (st : EditorState)
    (cur : Snapshot)
    (hI : st.historyInitialized = true) (hA : st.isApplyingHistory = false)
    (hR : st.applyingRemote = false) (hB : st.historyBaseline = some cur)
    (hInv : st.historyPendingFrom = none ∧ st.historyTimerArmed = false ∧
              st.slides = cur ∨
            st.historyPendingFrom = some cur ∧ st.historyTimerArmed = true) :
    (applyLocalEdit now e st).historyInitialized = true ∧
    (applyLocalEdit now e st).isApplyingHistory = false ∧
    (applyLocalEdit now e st).applyingRemote = false ∧
    (applyLocalEdit now e st).historyBaseline = some cur ∧
    (applyLocalEdit now e st).undoStack = st.undoStack ∧
    (applyLocalEdit now e st).redoStack = st.redoStack ∧
    (applyLocalEdit now e st).slides = e ∧
    ((applyLocalEdit now e st).historyPendingFrom = none ∧
     (applyLocalEdit now e st).historyTimerArmed = false ∧
     (applyLocalEdit now e st).slides = cur ∨
     (applyLocalEdit now e st).historyPendingFrom = some cur ∧
     (applyLocalEdit now e st).historyTimerArmed = true) := by
  by_cases he : e = cur <;> rcases hInv with ⟨h1, h2, h3⟩ | ⟨h1, h2⟩ <;>
    simp_all [applyLocalEdit, historyCaptureEffect, initHistoryIfNeeded,
      dirtyMarkEffect_slides, dirtyMarkEffect_historyInitialized,
      dirtyMarkEffect_isApplyingHistory, dirtyMarkEffect_applyingRemote,
      dirtyMarkEffect_historyBaseline, dirtyMarkEffect_undoStack,
      dirtyMarkEffect_redoStack, dirtyMarkEffect_historyPendingFrom,
      dirtyMarkEffect_historyTimerArmed]

/-- The burst invariant, folded over a whole run of local edits. -/
lemma burst_fold (now : Nat) (es : List Snapshot) :
    ∀ (st : EditorState) (cur : Snapshot),
      st.historyInitialized = true → st.isApplyingHistory = false →
      st.applyingRemote = false → st.historyBaseline = some cur →
      (st.historyPendingFrom = none ∧ st.historyTimerArmed = false ∧
         st.slides = cur ∨
       st.historyPendingFrom = some cur ∧ st.historyTimerArmed = true) →
      ((es.foldl (fun s e => applyLocalEdit now e s) st).historyInitialized = true ∧
       (es.foldl (fun s e => applyLocalEdit now e s) st).isApplyingHistory = false ∧
       (es.foldl (fun s e => applyLocalEdit now e s) st).applyingRemote = false ∧
       (es.foldl (fun s e => applyLocalEdit now e s) st).historyBaseline = some cur ∧
       (es.foldl (fun s e => applyLocalEdit now e s) st).undoStack = st.undoStack ∧
       (es.foldl (fun s e => applyLocalEdit now e s) st).redoStack = st.redoStack ∧
       (es.foldl (fun s e => applyLocalEdit now e s) st).slides
         = es.getLast?.getD st.slides ∧
       ((es.foldl (fun s e => applyLocalEdit now e s) st).historyPendingFrom = none ∧
        (es.foldl (fun s e => applyLocalEdit now e s) st).historyTimerArmed = false ∧
        (es.foldl (fun s e => applyLocalEdit now e s) st).slides = cur ∨
        (es.foldl (fun s e => applyLocalEdit now e s) st).historyPendingFrom
          = some cur ∧
        (es.foldl (fun s e => applyLocalEdit now e s) st).historyTimerArmed
          = true)) := by
  induction es with
  | nil => intro st cur hI hA hR hB hInv; exact ⟨hI, hA, hR, hB, rfl, rfl, rfl, hInv⟩
  | cons e rest ih =>
    intro st cur hI hA hR hB hInv
    obtain ⟨k1, k2, k3, k4, k5, k6, k7, k8⟩ :=
      applyLocalEdit_burst_step now e st cur hI hA hR hB hInv
    obtain ⟨m1, m2, m3, m4, m5, m6, m7, m8⟩ :=
      ih (applyLocalEdit now e st) cur k1 k2 k3 k4 k8
    simp only [List.foldl_cons]
    refine ⟨m1, m2, m3, m4, by rw [m5, k5], by rw [m6, k6], ?_, m8⟩
    rw [m7, k7]
    cases rest with
    | nil => simp
    | cons h t => rw [List.getLast?_cons_cons]; rfl

/-- A burst with a net change, fired from an idle history below the 60-entry
cap, pushes exactly one undo entry — the pre-burst state — clears the redo
stack, and returns to an idle history on the burst's final state. -/
lemma applyBurst_spec (now : Nat) (es : List Snapshot) (st : EditorState)
    (l : Snapshot)
    (hIdle : HistoryIdle st) (hLast : es.getLast? = some l) (hNe : l ≠ st.slides)
    (hCap : st.undoStack.length < HISTORY_MAX) :
    HistoryIdle (applyBurst now es st) ∧
    (applyBurst now es st).slides = l ∧
    (applyBurst now es st).undoStack = st.slides :: st.undoStack ∧
    (applyBurst now es st).redoStack = [] := by
  obtain ⟨hI, hP, hT, hB, hA, hR⟩ := hIdle
  obtain ⟨m1, m2, m3, m4, m5, m6, m7, m8⟩ :=
    burst_fold now es st st.slides hI hA hR hB (Or.inl ⟨hP, hT, rfl⟩)
  rw [hLast] at m7
  simp only [Option.getD_some] at m7
  have hpair : (es.foldl (fun s e => applyLocalEdit now e s) st).historyPendingFrom
      = some st.slides ∧
      (es.foldl (fun s e => applyLocalEdit now e s) st).historyTimerArmed = true := by
    rcases m8 with ⟨_, _, hc⟩ | h
    · rw [m7] at hc
      exact absurd hc hNe
    · exact h
  unfold applyBurst fireHistoryTimer
  rw [hpair.2]
  simp only [if_true]
  set Y := es.foldl (fun s e => applyLocalEdit now e s) st with hY
  unfold flushPendingHistoryCommit
  rw [show ({ Y with historyTimerArmed := false } : EditorState).historyInitialized
        = true from m1]
  simp only [Bool.not_true, Bool.false_eq_true, if_false]
  rw [show ({ Y with historyTimerArmed := false } : EditorState).historyPendingFrom
        = some st.slides from hpair.1]
  dsimp only
  rw [show ({ Y with historyTimerArmed := false, historyPendingFrom := none }
        : EditorState).slides = l from m7]
  rw [if_neg hNe]
  have hundo : ({ Y with historyTimerArmed := false, historyPendingFrom := none }
      : EditorState).undoStack = st.undoStack := m5
  rw [hundo]
  rw [if_neg (by simp only [List.length_cons]; omega)]
  refine ⟨⟨rfl, rfl, rfl, rfl, m2, m3⟩, rfl, rfl, rfl⟩

/-- A burst sequence pushes one undo entry per burst. -/
lemma stackOf_length (bs : List (List Snapshot)) :
    ∀ cur, (stackOf cur bs).length = bs.length := by
  induction bs with
  | nil => intro cur; rfl
  | cons b bs ih =>
    intro cur
    unfold stackOf
    rw [List.length_append, ih]
    simp

/-- A valid burst sequence within the cap stacks its pre-states top-first and
ends idle on its final state. -/
lemma runBursts_spec (now : Nat) (bs : List (List Snapshot)) :
    ∀ (st : EditorState), HistoryIdle st → validBursts st.slides bs = true →
      st.redoStack = [] →
      st.undoStack.length + bs.length ≤ HISTORY_MAX →
      HistoryIdle (runBursts now bs st) ∧
      (runBursts now bs st).slides = finalOf st.slides bs ∧
      (runBursts now bs st).undoStack = stackOf st.slides bs ++ st.undoStack ∧
      (runBursts now bs st).redoStack = [] := by
  induction bs with
  | nil => intro st hIdle _ hRe _; exact ⟨hIdle, rfl, rfl, hRe⟩
  | cons b bs ih =>
    intro st hIdle hV hRe hCap
    unfold validBursts at hV
    rcases hlast : b.getLast? with _ | l
    · rw [hlast] at hV
      simp at hV
    · rw [hlast] at hV
      simp only [Bool.and_eq_true, decide_eq_true_eq] at hV
      obtain ⟨hNe, hV'⟩ := hV
      obtain ⟨j1, j2, j3, j4⟩ := applyBurst_spec now b st l hIdle hlast hNe
        (by simp only [List.length_cons] at hCap; omega)
      have hfold : runBursts now (b :: bs) st = runBursts now bs (applyBurst now b st) := by
        unfold runBursts
        simp [List.foldl_cons]
      obtain ⟨m1, m2, m3, m4⟩ := ih (applyBurst now b st) j1 (by rw [j2]; exact hV') j4
        (by rw [j3]; simp only [List.length_cons] at hCap ⊢; omega)
      rw [hfold]
      refine ⟨m1, ?_, ?_, m4⟩
      · rw [m2, j2,
          show finalOf st.slides (b :: bs) = finalOf (b.getLast?.getD st.slides) bs
            from rfl, hlast]
        simp
      · rw [m3, j2, j3,
          show stackOf st.slides (b :: bs)
              = stackOf (b.getLast?.getD st.slides) bs ++ [st.slides] from rfl, hlast]
        simp

/-- An undo keystroke on an idle history pops the top undo entry into the
slides and pushes the displayed state onto the redo stack. -/
lemma applyUndoKey_step (m : Nat) (st : EditorState) (p : Snapshot)
    (rest : List Snapshot)
    (hIdle : HistoryIdle st) (hU : st.undoStack = p :: rest) :
    HistoryIdle (applyUndoKey m st) ∧
    (applyUndoKey m st).slides = p ∧
    (applyUndoKey m st).undoStack = rest ∧
    (applyUndoKey m st).redoStack = st.slides :: st.redoStack := by
  obtain ⟨hI, hP, hT, hB, hA, hR⟩ := hIdle
  have h1 : initHistoryIfNeeded st = st := by
    unfold initHistoryIfNeeded
    rw [if_pos hI]
  have h2 := flushPendingHistoryCommit_id st hI hT hP hB
  unfold applyUndoKey
  rw [h1]
  simp only [hI, Bool.not_true, Bool.false_eq_true, if_false, h2, hU, hB,
    Option.getD_some]
  simp only [historyCaptureEffect_applying_id, hI]
  refine ⟨⟨?_, ?_, ?_, ?_, rfl, ?_⟩, ?_, ?_, ?_⟩ <;>
    simp [dirtyMarkEffect_historyInitialized, dirtyMarkEffect_historyPendingFrom,
      dirtyMarkEffect_historyTimerArmed, dirtyMarkEffect_historyBaseline,
      dirtyMarkEffect_slides, dirtyMarkEffect_applyingRemote,
      dirtyMarkEffect_undoStack, dirtyMarkEffect_redoStack, hI, hP, hT, hR]

/-- A redo keystroke on an idle history pops the top redo entry into the
slides and pushes the displayed state onto the undo stack. -/
lemma applyRedoKey_step (m : Nat) (st : EditorState) (q : Snapshot)
    (rest : List Snapshot)
    (hIdle : HistoryIdle st) (hRe : st.redoStack = q :: rest) :
    HistoryIdle (applyRedoKey m st) ∧
    (applyRedoKey m st).slides = q ∧
    (applyRedoKey m st).redoStack = rest ∧
    (applyRedoKey m st).undoStack = st.slides :: st.undoStack := by
  obtain ⟨hI, hP, hT, hB, hA, hR⟩ := hIdle
  have h1 : initHistoryIfNeeded st = st := by
    unfold initHistoryIfNeeded
    rw [if_pos hI]
  have h2 := flushPendingHistoryCommit_id st hI hT hP hB
  unfold applyRedoKey
  rw [h1]
  simp only [hI, Bool.not_true, Bool.false_eq_true, if_false, h2, hRe, hB,
    Option.getD_some]
  simp only [historyCaptureEffect_applying_id, hI]
  refine ⟨⟨?_, ?_, ?_, ?_, rfl, ?_⟩, ?_, ?_, ?_⟩ <;>
    simp [dirtyMarkEffect_historyInitialized, dirtyMarkEffect_historyPendingFrom,
      dirtyMarkEffect_historyTimerArmed, dirtyMarkEffect_historyBaseline,
      dirtyMarkEffect_slides, dirtyMarkEffect_applyingRemote,
      dirtyMarkEffect_undoStack, dirtyMarkEffect_redoStack, hI, hP, hT, hR]

/-- The state displayed after undoing a whole stack (top first). -/
def undoResSlides : Snapshot → List Snapshot → Snapshot
  | cur, [] => cur
  | _, p :: stk => undoResSlides p stk

/-- The redo stack accumulated while undoing a whole stack. -/
def undoResRedo : Snapshot → List Snapshot → List Snapshot → List Snapshot
  | _, [], r => r
  | cur, p :: stk, r => undoResRedo p stk (cur :: r)

/-- The state displayed after redoing a whole stack (top first). -/
def redoResSlides : Snapshot → List Snapshot → Snapshot
  | cur, [] => cur
  | _, q :: rstk => redoResSlides q rstk

/-- Undoing `stk.length` times from an idle history walks down the stack. -/
lemma undo_steps (m : Nat) (stk : List Snapshot) :
    ∀ (st : EditorState) (undo0 : List Snapshot),
      HistoryIdle st → st.undoStack = stk ++ undo0 →
      HistoryIdle ((applyUndoKey m)^[stk.length] st) ∧
      ((applyUndoKey m)^[stk.length] st).slides = undoResSlides st.slides stk ∧
      ((applyUndoKey m)^[stk.length] st).undoStack = undo0 ∧
      ((applyUndoKey m)^[stk.length] st).redoStack
        = undoResRedo st.slides stk st.redoStack := by
  induction stk with
  | nil => intro st undo0 hIdle hU; exact ⟨hIdle, rfl, by simpa using hU, rfl⟩
  | cons p stk ih =>
    intro st undo0 hIdle hU
    obtain ⟨j1, j2, j3, j4⟩ := applyUndoKey_step m st p (stk ++ undo0) hIdle
      (by simpa using hU)
    have hiter : (applyUndoKey m)^[(p :: stk).length] st
        = (applyUndoKey m)^[stk.length] (applyUndoKey m st) := by
      simp [Function.iterate_succ_apply]
    obtain ⟨m1, m2, m3, m4⟩ := ih (applyUndoKey m st) undo0 j1 j3
    rw [hiter]
    refine ⟨m1, ?_, m3, ?_⟩
    · rw [m2, j2]
      rfl
    · rw [m4, j2, j4]
      rfl

/-- Redoing `rstk.length` times from an idle history walks down the redo
stack. -/
lemma redo_steps (m : Nat) (rstk : List Snapshot) :
    ∀ (st : EditorState) (redo0 : List Snapshot),
      HistoryIdle st → st.redoStack = rstk ++ redo0 →
      HistoryIdle ((applyRedoKey m)^[rstk.length] st) ∧
      ((applyRedoKey m)^[rstk.length] st).slides = redoResSlides st.slides rstk ∧
      ((applyRedoKey m)^[rstk.length] st).redoStack = redo0 := by
  induction rstk with
  | nil => intro st redo0 hIdle hRe; exact ⟨hIdle, rfl, by simpa using hRe⟩
  | cons q rstk ih =>
    intro st redo0 hIdle hRe
    obtain ⟨j1, j2, j3, j4⟩ := applyRedoKey_step m st q (rstk ++ redo0) hIdle
      (by simpa using hRe)
    have hiter : (applyRedoKey m)^[(q :: rstk).length] st
        = (applyRedoKey m)^[rstk.length] (applyRedoKey m st) := by
      simp [Function.iterate_succ_apply]
    obtain ⟨m1, m2, m3⟩ := ih (applyRedoKey m st) redo0 j1 j3
    rw [hiter]
    refine ⟨m1, ?_, m3⟩
    rw [m2, j2]
    rfl

/-- Undoing a whole stack lands on its bottom entry. -/
lemma undoResSlides_append (stk : List Snapshot) :
    ∀ (cur x : Snapshot), undoResSlides cur (stk ++ [x]) = x := by
  induction stk with
  | nil => intro cur x; rfl
  | cons p stk ih => intro cur x; exact ih p x

/-- Undoing everything a burst sequence pushed returns to the pre-burst-1
state. -/
lemma undoResSlides_journal (bs : List (List Snapshot)) :
    ∀ cur, undoResSlides (finalOf cur bs) (stackOf cur bs) = cur := by
  induction bs with
  | nil => intro cur; rfl
  | cons b bs ih =>
    intro cur
    unfold finalOf stackOf
    exact undoResSlides_append _ _ _

/-- Redoing everything that undoing a stack accumulated returns to the
pre-undo state. -/
lemma redo_journal (stk : List Snapshot) :
    ∀ (cur : Snapshot) (acc : List Snapshot),
      redoResSlides (undoResSlides cur stk) (undoResRedo cur stk acc)
        = redoResSlides cur acc := by
  induction stk with
  | nil => intro cur acc; rfl
  | cons p stk ih => intro cur acc; exact ih p (cur :: acc)

/-- Undoing a stack accumulates one redo entry per undo. -/
lemma undoResRedo_length (stk : List Snapshot) :
    ∀ cur acc, (undoResRedo cur stk acc).length = stk.length + acc.length := by
  induction stk with
  | nil => intro cur acc; simp [undoResRedo]
  | cons p stk ih =>
    intro cur acc
    unfold undoResRedo
    rw [ih]
    simp only [List.length_cons]
    omega

/-- Claim C5 (undo/redo round-trip): starting from an idle history with empty
stacks, after any valid sequence of N coalesced edit bursts (N within the
60-entry cap), pressing undo N times returns the document state — hence its
serialization, `JSON.stringify` being deterministic — exactly to the
pre-burst-1 state, and pressing redo N times afterwards restores exactly the
final state. -/
theorem undo_redo_round_trip (st : EditorState) (now m m2 : Nat)
    (bs : List (List Snapshot))
    (hIdle : HistoryIdle st) (hU : st.undoStack = []) (hRe : st.redoStack = [])
    (hV : validBursts st.slides bs = true) (hN : bs.length ≤ HISTORY_MAX) :
    ((applyUndoKey m)^[bs.length] (runBursts now bs st)).slides = st.slides ∧
    ((applyRedoKey m2)^[bs.length]
       ((applyUndoKey m)^[bs.length] (runBursts now bs st))).slides
      = (runBursts now bs st).slides ∧
    (runBursts now bs st).slides = finalOf st.slides bs := by
  obtain ⟨r1, r2, r3, r4⟩ := runBursts_spec now bs st hIdle hV hRe
    (by rw [hU]; simpa)
  have hsl : (stackOf st.slides bs).length = bs.length := stackOf_length bs st.slides
  obtain ⟨u1, u2, u3, u4⟩ := undo_steps m (stackOf st.slides bs)
    (runBursts now bs st) [] r1 (by rw [r3, hU])
  rw [hsl] at u1 u2 u3 u4
  rw [r2] at u2 u4
  have hback : ((applyUndoKey m)^[bs.length] (runBursts now bs st)).slides
      = st.slides := by
    rw [u2, undoResSlides_journal]
  refine ⟨hback, ?_, r2⟩
  have hu4 : ((applyUndoKey m)^[bs.length] (runBursts now bs st)).redoStack
      = undoResRedo (finalOf st.slides bs) (stackOf st.slides bs) [] := by
    rw [u4, r4]
  have hlen2 : (undoResRedo (finalOf st.slides bs) (stackOf st.slides bs) []).length
      = bs.length := by
    rw [undoResRedo_length, hsl]
    simp
  obtain ⟨d1, d2, d3⟩ := redo_steps m2
    (undoResRedo (finalOf st.slides bs) (stackOf st.slides bs) [])
    ((applyUndoKey m)^[bs.length] (runBursts now bs st)) [] u1 (by rw [hu4]; simp)
  rw [hlen2] at d2
  rw [d2, hback]
  have hjr := redo_journal (stackOf st.slides bs) (finalOf st.slides bs) []
  rw [undoResSlides_journal] at hjr
  rw [hjr, r2]
  rfl

/-- Two bursts (the second with two coalesced edits) for the C5 witness. -/
def rtBursts : List (List Snapshot) := [[[⟨1, 11⟩]], [[⟨1, 12⟩], [⟨1, 13⟩]]]

/-- Witness for `undo_redo_round_trip` on concrete inputs. -/
theorem undo_redo_round_trip_witness :
    (HistoryIdle baseState ∧ baseState.undoStack = [] ∧ baseState.redoStack = [] ∧
     validBursts baseState.slides rtBursts = true ∧
     rtBursts.length ≤ HISTORY_MAX) ∧
    (((applyUndoKey 0)^[rtBursts.length] (runBursts 5 rtBursts baseState)).slides
       = baseState.slides ∧
     ((applyRedoKey 0)^[rtBursts.length]
        ((applyUndoKey 0)^[rtBursts.length] (runBursts 5 rtBursts baseState))).slides
       = (runBursts 5 rtBursts baseState).slides ∧
     (runBursts 5 rtBursts baseState).slides = finalOf baseState.slides rtBursts) :=
  ⟨⟨⟨rfl, rfl, rfl, rfl, rfl, rfl⟩, by decide, by decide, by decide, by decide⟩,
   undo_redo_round_trip baseState 5 0 0 rtBursts ⟨rfl, rfl, rfl, rfl, rfl, rfl⟩
     (by decide) (by decide) (by decide) (by decide)⟩
